import Mathlib

/-!
# go-btfs daemon start-up: chain identity and vault-factory migration

A shallow embedding of the chain-identity resolver (`getInputChainID`,
`getChainID`) and of the vault-factory migration
(`doIfNeedUpgradeFactoryToV2`) of `cmd/btfs/daemon.go`, with the slice of
`daemonFunc` that calls the migration; of the serve functions
(`serveHTTPApi`, `serveHTTPGateway`, `serveHTTPRemoteApi`), of the self test
`functest`, of `CheckExistLastOnlineReportV2`, and of further slices of
`daemonFunc`: config migration, vault logic upgrade, deployment gas price,
routing option and error aggregation; and of `daemonFunc` itself from
`fsrepo.Open` to its last `return`, with its deferred calls.

Conventions of the embedding

* Go `int64` values are `Int`; the resolver only compares them, so no
  wrap-around is involved.
* A Go `error` is its message (`Error := String`); `nil` is `none`.
* Functions of other packages (`chain`, `chainconfig`, `vault`, `repo`,
  `commands`, go-ethereum `common`) are parameters: either the outcome of the
  call or a function of the call's arguments.
* Writes to stdout (`fmt.Println`, `fmt.Printf`) and to the log are not
  modelled.
* A `go` statement is the event of spawning the task; what the task does
  afterwards, and the scheduling of tasks, are not modelled.
-/

namespace Btfs

/-- A Go `error` value, represented by its message. -/
abbrev Error := String

deriving instance DecidableEq for Except

/-! ## `strconv.ParseInt(s, 10, 64)` -/

/-- Value of one byte as a base-10 digit (`'0' <= c && c <= '9'`). -/
def digitVal (c : Char) : Option Nat :=
  if '0' ≤ c ∧ c ≤ '9' then some (c.toNat - '0'.toNat) else none

/-- Accumulating loop of `strconv.ParseUint` in base 10, without the range
check: `none` as soon as a byte is not a decimal digit. -/
def parseDigits : Nat → List Char → Option Nat
  | n, [] => some n
  | n, c :: cs =>
    match digitVal c with
    | none => none
    | some d => parseDigits (n * 10 + d) cs

/-- Message of a `*strconv.NumError`.  `s.quote` stands for
`strconv.Quote(s)`; the two may escape a character differently, and no
theorem depends on the text. -/
def numError (fn s reason : String) : Error :=
  "strconv." ++ fn ++ ": parsing " ++ s.quote ++ ": " ++ reason

/-- Go `strconv.ParseInt(s, 10, 64)`: an optional sign, then at least one
decimal digit and nothing else; the value must fit in an `int64`.  Only the
text of the failure differs from Go when an input both overflows and holds a
later non-digit byte; no theorem depends on that text. -/
def ParseInt (s : String) : Except Error Int :=
  match s.data with
  | [] => .error (numError "ParseInt" s "invalid syntax")
  | c :: cs =>
    let neg := (c == '-')
    let body := if c == '+' ∨ c == '-' then cs else c :: cs
    match body with
    | [] => .error (numError "ParseInt" s "invalid syntax")
    | _ :: _ =>
      match parseDigits 0 body with
      | none => .error (numError "ParseInt" s "invalid syntax")
      | some un =>
        if ¬ neg ∧ un ≥ 2 ^ 63 then .error (numError "ParseInt" s "value out of range")
        else if neg ∧ un > 2 ^ 63 then .error (numError "ParseInt" s "value out of range")
        else .ok (if neg then - (un : Int) else (un : Int))

/-! ## Configuration -/

/-- The `ChainInfo` section of the node configuration (`cfg.ChainInfo`). -/
structure ChainInfo where
  ChainId : Int
  Endpoint : String
  CurrentFactory : String
  PriceOracleAddress : String
deriving DecidableEq, Repr

/-- The part of `config.Config` read and written by the embedded functions. -/
structure Config where
  ChainInfo : ChainInfo
deriving DecidableEq, Repr

/-! ## Chain identity -/

/-- Formatting of an `int64` by the verb `%d`. -/
def fmtD (n : Int) : String := toString n

/-- Source `getInputChainID`.  `opt` is `req.Options[chainID].(string)`:
`none` when the option is absent (`found = false`). -/
def getInputChainID (opt : Option String) : Except Error Int :=
  match opt with
  | some inputChainIdStr =>
    match ParseInt inputChainIdStr with
    | .error err => .error err
    | .ok inputChainid => .ok inputChainid
  | none => .ok 0

/-- The three results `(chainId, stored, err)` of `getChainID`. -/
structure ChainIDResult where
  chainId : Int
  stored : Bool
  err : Option Error
deriving DecidableEq, Repr

/-- Message of the config conflict (first `errors.New` of `getChainID`). -/
def cfgConflictMsg (storeChainid cfgChainId : Int) : Error :=
  "current chainId=" ++ fmtD storeChainid ++ " is different from config chainId=" ++
    fmtD cfgChainId ++ (", " ++ "you can not change chain id in config file")

/-- Message of the CLI conflict (second `errors.New` of `getChainID`). -/
def inputConflictMsg (storeChainid inputChainId : Int) : Error :=
  "current chainId=" ++ fmtD storeChainid ++ " is different from input chainId=" ++
    fmtD inputChainId ++ (", " ++ "you can not change chain id with --chain-id when node start")

/-- Source `getChainID`.  `DefaultChain` is the constant `cc.DefaultChain`,
`opt` the `--chain-id` option of the request and `fromDisk` the outcome of
`chain.GetChainIdFromDisk(stateStorer)`. -/
def getChainID (DefaultChain : Int) (opt : Option String) (cfg : Config)
    (fromDisk : Except Error Int) : ChainIDResult :=
  let cfgChainId := cfg.ChainInfo.ChainId
  match getInputChainID opt with
  | .error err => { chainId := 0, stored := false, err := some err }
  | .ok inputChainId =>
    match fromDisk with
    | .error err => { chainId := 0, stored := false, err := some err }
    | .ok storeChainid =>
      if storeChainid > 0 then
        if cfgChainId = 0 ∧ cfg.ChainInfo.Endpoint = "" then
          { chainId := storeChainid, stored := false, err := none }
        else if storeChainid ≠ cfgChainId then
          { chainId := 0, stored := false, err := some (cfgConflictMsg storeChainid cfgChainId) }
        else if inputChainId > 0 ∧ storeChainid ≠ inputChainId then
          { chainId := 0, stored := false,
            err := some (inputConflictMsg storeChainid inputChainId) }
        else
          { chainId := storeChainid, stored := true, err := none }
      else
        { chainId := if inputChainId > 0 then inputChainId else DefaultChain,
          stored := false, err := none }

/-- Text `sub` occurs in text `msg`. -/
def Mentions (msg sub : String) : Prop := sub.data <:+: msg.data

/-! ## Vault-factory migration -/

/-- The go-ethereum functions `common.Address.Hex` and `common.HexToAddress`
over an address type `Addr`.  `Hex` yields `0x` followed by forty hex digits,
so it is never the empty string. -/
structure AddressLib (Addr : Type) where
  Hex : Addr → String
  HexToAddress : String → Addr
  hex_ne_empty : ∀ a, Hex a ≠ ""

/-- The fields of `chainconfig.ChainConfig` used by the daemon. -/
structure ChainConfig (Addr : Type) where
  Endpoint : String
  CurrentFactory : Addr
  PriceOracleAddress : Addr
  DeploymentGas : String

/-- Outcomes of the calls `doIfNeedUpgradeFactoryToV2` makes into other
packages, as functions of the arguments of the call. -/
structure MigrationEnv (Addr : Type) where
  /-- Lookup `chainconfig.GetChainConfig(chainid)`; `none` is `ok = false`. -/
  GetChainConfig : Int → Option (ChainConfig Addr)
  /-- Predicate `chainconfig.IsV1FactoryAddr`. -/
  IsV1FactoryAddr : String → Bool
  /-- Predicate `chainconfig.IsV2FactoryAddr`. -/
  IsV2FactoryAddr : String → Bool
  /-- Outcome of `vault.GetStoredVaultAddr(statestore)`. -/
  GetStoredVaultAddr : Except Error Addr
  /-- Outcome of `statestore.Close()`. -/
  Close : Option Error
  /-- Value of `rand.Intn(100)`. -/
  Intn : Nat
  /-- Outcome of `chain.BackUpStateStore(configRoot, bkSuffix)`. -/
  BackUpStateStore : String → String → Option Error
  /-- Outcome of `repo.BackUpConfigV2(bkSuffix)`. -/
  BackUpConfigV2 : String → Except Error String
  /-- Outcome of `commands.SyncConfigChainInfoV2(configRoot, chainid, endpoint,
  factory, oracle)`. -/
  SyncConfigChainInfoV2 : String → Int → String → Addr → Addr → Option Error

/-- Observable effects, in the order of execution: calls into other packages
and assignments to the shared `cfg` and `chainCfg` objects. -/
inductive Event (Addr : Type) where
  | getStoredVaultAddr
  | closeStateStore
  | backUpStateStore (configRoot bkSuffix : String)
  | backUpConfigV2 (bkSuffix : String)
  | writeChainCfgCurrentFactory (v : Addr)
  | writeCfgChainId (v : Int)
  | writeCfgEndpoint (v : String)
  | writeCfgCurrentFactory (v : String)
  | writeCfgPriceOracleAddress (v : String)
  | syncConfigChainInfoV2 (configRoot : String) (chainid : Int) (endpoint : String)
      (factory oracle : Addr)
  | initStateStore (configRoot : String)
  | storeChainIdIfNotExists (chainid : Int)
deriving DecidableEq, Repr

/-- The event is an assignment to a field of `cfg` or `chainCfg`. -/
def Event.isWrite {Addr : Type} : Event Addr → Bool
  | .writeChainCfgCurrentFactory _ => true
  | .writeCfgChainId _ => true
  | .writeCfgEndpoint _ => true
  | .writeCfgCurrentFactory _ => true
  | .writeCfgPriceOracleAddress _ => true
  | _ => false

/-- The event is a call of `commands.SyncConfigChainInfoV2`. -/
def Event.isSync {Addr : Type} : Event Addr → Bool
  | .syncConfigChainInfoV2 _ _ _ _ _ => true
  | _ => false

/-- The event is one of the two backups. -/
def Event.isBackup {Addr : Type} : Event Addr → Bool
  | .backUpStateStore _ _ => true
  | .backUpConfigV2 _ => true
  | _ => false

/-- Results `(need, err)` of `doIfNeedUpgradeFactoryToV2`, the objects behind
its pointer arguments `cfg` and `chainCfg` after the call, and the effects of
the call in order. -/
structure UpgradeResult (Addr : Type) where
  need : Bool
  err : Option Error
  cfg : Config
  chainCfg : ChainConfig Addr
  events : List (Event Addr)

/-- Source `doIfNeedUpgradeFactoryToV2`, the statements after
`if !need { return }`: they run with `need = true` and `currFactory` the hex
text of the code's current factory. -/
def upgradeSteps {Addr : Type} (L : AddressLib Addr) (E : MigrationEnv Addr)
    (chainid : Int) (chainCfg : ChainConfig Addr) (cfg : Config) (configRoot : String)
    (currFactory : String) : UpgradeResult Addr :=
  let ev1 : List (Event Addr) := [.getStoredVaultAddr]
  match E.GetStoredVaultAddr with
  | .error err =>
    { need := true, err := some err, cfg := cfg, chainCfg := chainCfg, events := ev1 }
  | .ok _oldVault =>
    let ev2 := ev1 ++ [.closeStateStore]
    match E.Close with
    | some err =>
      { need := true, err := some err, cfg := cfg, chainCfg := chainCfg, events := ev2 }
    | none =>
      let bkSuffix := "backup" ++ fmtD (E.Intn : Int)
      let ev3 := ev2 ++ [.backUpStateStore configRoot bkSuffix]
      match E.BackUpStateStore configRoot bkSuffix with
      | some err =>
        { need := true, err := some err, cfg := cfg, chainCfg := chainCfg, events := ev3 }
      | none =>
        let ev4 := ev3 ++ [.backUpConfigV2 bkSuffix]
        match E.BackUpConfigV2 bkSuffix with
        | .error err =>
          { need := true, err := some err, cfg := cfg, chainCfg := chainCfg, events := ev4 }
        | .ok _bkConfig =>
          let chainCfg1 : ChainConfig Addr :=
            { chainCfg with CurrentFactory := L.HexToAddress currFactory }
          let info1 : ChainInfo := { cfg.ChainInfo with ChainId := chainid }
          let info2 : ChainInfo := { info1 with Endpoint := chainCfg1.Endpoint }
          let info3 : ChainInfo :=
            { info2 with CurrentFactory := L.Hex chainCfg1.CurrentFactory }
          let info4 : ChainInfo :=
            { info3 with PriceOracleAddress := L.Hex chainCfg1.PriceOracleAddress }
          let cfg1 : Config := { cfg with ChainInfo := info4 }
          let ev5 := ev4 ++
            [.writeChainCfgCurrentFactory chainCfg1.CurrentFactory,
             .writeCfgChainId info4.ChainId,
             .writeCfgEndpoint info4.Endpoint,
             .writeCfgCurrentFactory info4.CurrentFactory,
             .writeCfgPriceOracleAddress info4.PriceOracleAddress,
             .syncConfigChainInfoV2 configRoot chainid chainCfg1.Endpoint
               chainCfg1.CurrentFactory chainCfg1.PriceOracleAddress]
          match E.SyncConfigChainInfoV2 configRoot chainid chainCfg1.Endpoint
              chainCfg1.CurrentFactory chainCfg1.PriceOracleAddress with
          | some err =>
            { need := true, err := some err, cfg := cfg1, chainCfg := chainCfg1,
              events := ev5 }
          | none =>
            { need := true, err := none, cfg := cfg1, chainCfg := chainCfg1, events := ev5 }

/-- Source `doIfNeedUpgradeFactoryToV2`.  `cfg` and `chainCfg` are the objects
behind the pointer arguments; `statestore` and `repo` appear through the
outcomes in `E`.  The statements after the decision are `upgradeSteps`. -/
def doIfNeedUpgradeFactoryToV2 {Addr : Type} (L : AddressLib Addr) (E : MigrationEnv Addr)
    (chainid : Int) (chainCfg : ChainConfig Addr) (cfg : Config) (configRoot : String) :
    UpgradeResult Addr :=
  match E.GetChainConfig chainid with
  | none =>
    { need := false, err := some ("chain " ++ fmtD chainid ++ " is not supported yet"),
      cfg := cfg, chainCfg := chainCfg, events := [] }
  | some currChainCfg =>
    let confFactory := cfg.ChainInfo.CurrentFactory
    let currFactory := L.Hex currChainCfg.CurrentFactory
    if E.IsV2FactoryAddr currFactory = false then
      { need := false, err := none, cfg := cfg, chainCfg := chainCfg, events := [] }
    else
      let need : Bool :=
        if confFactory = "" then true
        else if confFactory = currFactory then false
        else E.IsV1FactoryAddr confFactory
      if need = false then
        { need := false, err := none, cfg := cfg, chainCfg := chainCfg, events := [] }
      else
        upgradeSteps L E chainid chainCfg cfg configRoot currFactory

/-! ## The slice of `daemonFunc` around the migration -/

/-- Outcomes of the calls of `daemonFunc` between the factory upgrade and
`tokencfg.InitToken`. -/
structure ReinitEnv where
  /-- Outcome of the second `chain.InitStateStore(configRoot)`. -/
  InitStateStore : String → Option Error
  /-- Outcome of `chain.StoreChainIdIfNotExists(chainid, statestore)`. -/
  StoreChainIdIfNotExists : Int → Option Error

/-- How a slice of `daemonFunc` ends: with a `return` statement, giving the
value of the named result `_err`, or by falling through to the next
statement. -/
inductive Flow where
  | returned (_err : Option Error)
  | proceed
deriving DecidableEq, Repr

/-- State after the slice of `daemonFunc` that upgrades the factory. -/
structure UpgradeStep (Addr : Type) where
  flow : Flow
  needUpdateFactory : Bool
  cfg : Config
  chainCfg : ChainConfig Addr
  events : List (Event Addr)

/-- Source `daemonFunc`, from the comment `upgrade factory to v2 if necessary`
to the statement before `tokencfg.InitToken(chainid)`.  The last `return` of
the slice is a bare `return`: it yields the named result `_err`, which no
statement has assigned, not the local `err`.  Deferred calls are outside the
slice. -/
def daemonFunc_upgradeFactory {Addr : Type} (L : AddressLib Addr) (E : MigrationEnv Addr)
    (R : ReinitEnv) (chainid : Int) (chainCfg : ChainConfig Addr) (cfg : Config)
    (configRoot : String) : UpgradeStep Addr :=
  let r := doIfNeedUpgradeFactoryToV2 L E chainid chainCfg cfg configRoot
  match r.err with
  | some err =>
    { flow := .returned (some err), needUpdateFactory := r.need, cfg := r.cfg,
      chainCfg := r.chainCfg, events := r.events }
  | none =>
    if r.need then
      let ev1 := r.events ++ [.initStateStore configRoot]
      match R.InitStateStore configRoot with
      | some err =>
        { flow := .returned (some err), needUpdateFactory := r.need, cfg := r.cfg,
          chainCfg := r.chainCfg, events := ev1 }
      | none =>
        let ev2 := ev1 ++ [.storeChainIdIfNotExists chainid]
        match R.StoreChainIdIfNotExists chainid with
        | some _err =>
          { flow := .returned none, needUpdateFactory := r.need, cfg := r.cfg,
            chainCfg := r.chainCfg, events := ev2 }
        | none =>
          { flow := .proceed, needUpdateFactory := r.need, cfg := r.cfg,
            chainCfg := r.chainCfg, events := ev2 }
    else
      { flow := .proceed, needUpdateFactory := r.need, cfg := r.cfg,
        chainCfg := r.chainCfg, events := r.events }

/-! ## A concrete address model for evaluating the definitions -/

/-- Addresses as the text of their digits; `Hex` puts `0x` in front and
`HexToAddress` takes it off again. -/
def textAddressLib : AddressLib String where
  Hex := fun a => "0x" ++ a
  HexToAddress := fun s => String.mk (s.data.drop 2)
  hex_ne_empty := by
    intro a h
    have h2 := congrArg String.length h
    simp only [String.length_append] at h2
    have h3 : "0x".length = 2 := by decide
    have h4 : "".length = 0 := by decide
    omega

/-- Sample outcomes for chain 199: the code's current factory is `f2`, a v2
address; `0xf1` is the v1 address; every other chain ID is unknown.  The
outcomes of the two backups and of the persist step are arguments. -/
def sampleEnv (bkStore : Option Error) (bkCfg : Except Error String) (sync : Option Error) :
    MigrationEnv String where
  GetChainConfig := fun id =>
    if id = 199 then
      some { Endpoint := "https://rpc.bt.io/", CurrentFactory := "f2",
             PriceOracleAddress := "0a", DeploymentGas := "300000" }
    else none
  IsV1FactoryAddr := fun s => s == "0xf1"
  IsV2FactoryAddr := fun s => s == "0xf2"
  GetStoredVaultAddr := .ok "c0"
  Close := none
  Intn := 7
  BackUpStateStore := fun _ _ => bkStore
  BackUpConfigV2 := fun _ => bkCfg
  SyncConfigChainInfoV2 := fun _ _ _ _ _ => sync

/-- Sample chain configuration handed to the migration (`*chainCfg`). -/
def sampleChainCfg : ChainConfig String :=
  { Endpoint := "https://rpc.bt.io/", CurrentFactory := "f1", PriceOracleAddress := "0a",
    DeploymentGas := "300000" }

/-- Sample node configuration of chain 199 with factory text `factory`. -/
def sampleCfg (factory : String) : Config :=
  { ChainInfo := { ChainId := 199, Endpoint := "https://rpc.bt.io/", CurrentFactory := factory,
                   PriceOracleAddress := "" } }

/-! ## Vocabulary of the migration properties -/

/-- Suffix of the two backups, `fmt.Sprintf("backup%d", rand.Intn(100))`. -/
def bkSuffixOf {Addr : Type} (E : MigrationEnv Addr) : String :=
  "backup" ++ fmtD (E.Intn : Int)

/-- The steps of a triggered migration in the order the specification gives:
read the stored vault address, close the state store, back up the
state-store directory, back up the config file with the same suffix, write
the chain-info fields, persist the chain info. -/
def migrationOrder {Addr : Type} (L : AddressLib Addr) (E : MigrationEnv Addr)
    (chainid : Int) (chainCfg : ChainConfig Addr) (configRoot : String)
    (currFactory : String) : List (Event Addr) :=
  [.getStoredVaultAddr,
   .closeStateStore,
   .backUpStateStore configRoot (bkSuffixOf E),
   .backUpConfigV2 (bkSuffixOf E),
   .writeChainCfgCurrentFactory (L.HexToAddress currFactory),
   .writeCfgChainId chainid,
   .writeCfgEndpoint chainCfg.Endpoint,
   .writeCfgCurrentFactory (L.Hex (L.HexToAddress currFactory)),
   .writeCfgPriceOracleAddress (L.Hex chainCfg.PriceOracleAddress),
   .syncConfigChainInfoV2 configRoot chainid chainCfg.Endpoint (L.HexToAddress currFactory)
     chainCfg.PriceOracleAddress]

/-- Number of entries of `migrationOrder` that are reached: a step is reached
only if every earlier fallible step succeeded.  The five writes and the
persist call follow the config backup without a fallible step in between. -/
def stepsReached {Addr : Type} (E : MigrationEnv Addr) (configRoot : String) : Nat :=
  if E.GetStoredVaultAddr.toBool = false then 1
  else if E.Close.isSome then 2
  else if (E.BackUpStateStore configRoot (bkSuffixOf E)).isSome then 3
  else if (E.BackUpConfigV2 (bkSuffixOf E)).toBool = false then 4
  else 10

/-! ## Error aggregation at the end of `daemonFunc` -/

/-- A non-nil Go `error` value as `multierror.Append` tells them apart: a
plain error, a non-nil `*multierror.Error` with its list `Errors`, or a nil
`*multierror.Error` held in a non-nil interface value.  Wrapped errors are
represented by their messages. -/
inductive ErrValue where
  | plain (msg : Error)
  | multi (errors : List Error)
  | multiNil
deriving DecidableEq, Repr

/-- Go `*multierror.Error`: the list of the wrapped errors. -/
structure MultiError where
  Errors : List Error
deriving DecidableEq, Repr

/-- Go `multierror.Append(errs, err)` as `daemonFunc` calls it: `errs` is
nil or the `*multierror.Error` of the previous call, `err` is non-nil.  A
nil `errs` starts from an empty list; a plain `err` goes to the end of the
list, the entries of a `*multierror.Error` are appended in its place
(flattening), a nil `*multierror.Error` adds nothing.  The result is never
nil. -/
def multierrorAppend (errs : Option MultiError) (err : ErrValue) : MultiError :=
  let base : List Error :=
    match errs with
    | none => []
    | some m => m.Errors
  match err with
  | .multi es => { Errors := base ++ es }
  | .multiNil => { Errors := base }
  | .plain e => { Errors := base ++ [e] }

/-- Source `daemonFunc`, the loop `for err := range merge(...)` and the final
`return errs`: `drained` are the values received from the merged channel, in
order, until it is closed; a nil value is `none`. -/
def daemonFunc_collect (drained : List (Option ErrValue)) : Option MultiError :=
  drained.foldl
    (fun errs err =>
      match err with
      | some e => some (multierrorAppend errs e)
      | none => errs)
    none

/-- What one non-nil drained value contributes to the aggregate: itself when
plain, its wrapped errors when it is a multi-error. -/
def wrapped : ErrValue → List Error
  | .plain e => [e]
  | .multi es => es
  | .multiNil => []

/-- The contributions of the drained values, in the order received. -/
def wrappedErrors : List (Option ErrValue) → List Error
  | [] => []
  | none :: vs => wrappedErrors vs
  | some v :: vs => wrapped v ++ wrappedErrors vs

/-! ## The start-up self test -/

/-- Exit codes of the self test. -/
def findBTFSBinaryFailed : Nat := 100

/-- Exit code of a failed fetch phase. -/
def getFileTestFailed : Nat := 101

/-- Exit code of a failed add phase. -/
def addFileTestFailed : Nat := 102

/-- Outcomes of the calls of `functest`; `get_functest i` and `add_functest i`
are the outcomes of the call number `i` (from 0) of these functions. -/
structure FunctestEnv where
  getBtfsBinaryPath : Except Error String
  prepare_test : Bool
  get_functest : Nat → Option Error
  add_functest : Nat → Option Error

/-- Effects of `functest` in order. -/
inductive TestEvent where
  | prepareTest
  | getFunctest
  | addFunctest
  | sendError (msg : String)
  | exit (code : Nat)
deriving DecidableEq, Repr

/-- Result of `functest`: `exit = some c` when the process was terminated by
`os.Exit(c)`, `none` when the function returned. -/
structure TestResult where
  exit : Option Nat
  events : List TestEvent
deriving DecidableEq, Repr

/-- The loop `for i := 0; i < 2; i++` of `functest`, from iteration `i` with
`left` iterations to go; `call i` is the outcome of the tested function and
`ev` the event of calling it.  Yields `test_success` and the effects. -/
def retryLoop (call : Nat → Option Error) (ev : TestEvent) : Nat → Nat → Bool × List TestEvent
  | _, 0 => (false, [])
  | i, left + 1 =>
    match call i with
    | some err =>
      let rest := retryLoop call ev (i + 1) left
      (rest.1, ev :: .sendError err :: rest.2)
    | none => (true, [ev])

/-- Source `functest`. -/
def functest (E : FunctestEnv) : TestResult :=
  match E.getBtfsBinaryPath with
  | .error _ => { exit := some findBTFSBinaryFailed, events := [.exit findBTFSBinaryFailed] }
  | .ok _btfsBinaryPath =>
    if E.prepare_test then
      let g := retryLoop E.get_functest .getFunctest 0 2
      if g.1 = false then
        { exit := some getFileTestFailed,
          events := .prepareTest :: g.2 ++ [.exit getFileTestFailed] }
      else
        let a := retryLoop E.add_functest .addFunctest 0 2
        if a.1 = false then
          { exit := some addFileTestFailed,
            events := .prepareTest :: g.2 ++ a.2 ++ [.exit addFileTestFailed] }
        else
          { exit := none, events := .prepareTest :: g.2 ++ a.2 }
    else
      { exit := none, events := [.prepareTest] }

/-- Sample outcomes of the self test: the binary is found, the test is ready,
`get` and `add` give the outcomes of the two attempts of each phase. -/
def sampleTestEnv (get add : Nat → Option Error) : FunctestEnv :=
  { getBtfsBinaryPath := .ok "/usr/local/bin/btfs", prepare_test := true,
    get_functest := get, add_functest := add }

/-! ## Slices of `daemonFunc`: vault logic upgrade, config migration, gas price -/

/-- Go `strings.Contains(s, sub)`. -/
def stringsContains (s sub : String) : Bool := decide (sub.data <:+: s.data)

/-- State after a slice of `daemonFunc`: how the slice ends and the value of
the local variable `err`. -/
structure SliceEnd where
  flow : Flow
  err : Option Error
deriving DecidableEq, Repr

/-- Source `daemonFunc`, the statements under `upgrade vault implementation`.
`upgradeTo` is the outcome of `settleInfo.VaultService.UpgradeTo`, `none` for
a nil error. -/
def daemonFunc_upgradeVault (upgradeTo : Option Error) : SliceEnd :=
  match upgradeTo with
  | some err =>
    let emsg := err
    if stringsContains emsg "already upgraded" then
      { flow := .proceed, err := none }
    else
      { flow := .returned (some err), err := some err }
  | none => { flow := .proceed, err := none }

/-- Outcomes of the calls of the config-migration step. -/
structure MigrateEnv where
  /-- Result of `config.MigrateConfig(cfg, false, hasHval)`: the config after
  the in-place changes and the result `migrated`. -/
  MigrateConfig : Config → Bool → Bool → Config × Bool
  /-- Outcome of `repo.SetConfig(cfg)`. -/
  SetConfig : Config → Option Error

/-- State after the config-migration step: how it ends, the config object and
the arguments of the calls of `repo.SetConfig`. -/
structure MigrateStep where
  flow : Flow
  cfg : Config
  setConfigCalls : List Config
deriving DecidableEq, Repr

/-- Source `daemonFunc`, the statement `if !inited { ... }` after
`cctx.GetConfig()`. -/
def daemonFunc_migrateConfig (E : MigrateEnv) (inited hasHval : Bool) (cfg : Config) :
    MigrateStep :=
  if inited = false then
    let r := E.MigrateConfig cfg false hasHval
    let cfg1 := r.1
    let migrated := r.2
    let cfg2 : Config :=
      if cfg1.ChainInfo.PriceOracleAddress ≠ "" then
        { cfg1 with ChainInfo := { cfg1.ChainInfo with PriceOracleAddress := "" } }
      else cfg1
    let migrated2 : Bool :=
      if cfg1.ChainInfo.PriceOracleAddress ≠ "" then true else migrated
    if migrated2 then
      match E.SetConfig cfg2 with
      | some err => { flow := .returned (some err), cfg := cfg2, setConfigCalls := [cfg2] }
      | none => { flow := .proceed, cfg := cfg2, setConfigCalls := [cfg2] }
    else
      { flow := .proceed, cfg := cfg2, setConfigCalls := [] }
  else
    { flow := .proceed, cfg := cfg, setConfigCalls := [] }

/-- Source `daemonFunc`, the statements before `chain.InitSettlement`: the
value of `deployGasPrice` handed to it.  `opt` is
`req.Options[deploymentGasPrice].(string)` and `chainconfig` is
`chainInfo.Chainconfig`. -/
def daemonFunc_deployGasPrice {Addr : Type} (opt : Option String)
    (chainconfig : ChainConfig Addr) : String :=
  match opt with
  | some deployGasPrice => deployGasPrice
  | none => chainconfig.DeploymentGas

/-! ## Starting the HTTP services -/

/-- The fields of `config.Config` read by the serve functions:
`Addresses.API`, `Addresses.Gateway`, `Addresses.RemoteAPI` and
`Experimental.Libp2pStreamMounting`. -/
structure ServeConfig where
  API : List String
  Gateway : List String
  RemoteAPI : List String
  Libp2pStreamMounting : Bool
deriving DecidableEq, Repr

/-- Outcomes of the calls of the serve functions.  `M` is the type of
multiaddrs, compared by their byte string (the key
`string(maddr.Bytes())` of the source), `Lis` the type of listeners. -/
structure ServeEnv (M Lis : Type) where
  /-- Outcome of `cctx.GetConfig()`. -/
  GetConfig : Except Error ServeConfig
  /-- Outcome of `sockets.TakeListeners(name)`: the pre-bound listeners. -/
  TakeListeners : String → Except Error (List Lis)
  /-- Outcome of `ma.NewMultiaddr(addr)`. -/
  NewMultiaddr : String → Except Error M
  /-- Outcome of `manet.Listen(maddr)`. -/
  Listen : M → Except Error Lis
  /-- Method `listener.Multiaddr()`. -/
  Multiaddr : Lis → M
  /-- Text of a multiaddr (verb `%s`). -/
  MaddrString : M → String
  /-- Error of `cctx.ConstructNode()`. -/
  ConstructNode : Option Error
  /-- Outcome of `node.Repo.SetAPIAddr(maddr)`. -/
  SetAPIAddr : M → Option Error
  /-- Error of `node.P2P.ForwardRemote(..., maddr, false)`. -/
  ForwardRemote : M → Option Error

/-- Effects of the serve functions in order: a call of `manet.Listen`, of
`SetAPIAddr`, of `ForwardRemote`, a `go` statement running `corehttp.Serve`
on a listener, and the `go` statement that waits and closes `errc`. -/
inductive ServeEvent (M Lis : Type) where
  | listen (m : M)
  | setAPIAddr (m : M)
  | forwardRemote (m : M)
  | goServe (lis : Lis)
  | goClose
deriving DecidableEq, Repr

/-- The multiaddrs of the `manet.Listen` calls among the events. -/
def listenCalls {M Lis : Type} : List (ServeEvent M Lis) → List M
  | [] => []
  | .listen m :: evs => m :: listenCalls evs
  | _ :: evs => listenCalls evs

/-- The listeners of the spawned `corehttp.Serve` tasks among the events. -/
def serveTasks {M Lis : Type} : List (ServeEvent M Lis) → List Lis
  | [] => []
  | .goServe l :: evs => l :: serveTasks evs
  | _ :: evs => serveTasks evs

/-- How a serve function ends: `(errc, nil)`, `(nil, err)`, or the run-time
panic of indexing `listeners[0]` on an empty slice. -/
inductive ServeOutcome where
  | channel
  | failed (err : Error)
  | indexOutOfRange
deriving DecidableEq, Repr

/-- Result of a serve function: how it ends, the variable `listeners` at that
point, and the effects. -/
structure ServeResult (M Lis : Type) where
  outcome : ServeOutcome
  listeners : List Lis
  events : List (ServeEvent M Lis)

/-- State of a binding loop at its end: the error it returns with, if any,
the variable `listeners` and the effects so far. -/
structure BindResult (M Lis : Type) where
  err : Option Error
  listeners : List Lis
  events : List (ServeEvent M Lis)

/-- The binding loop of `serveHTTPApi` and of `serveHTTPGateway`
(`for _, addr := range apiAddrs`, resp. `gatewayAddrs`).  `fn` and `what` are
the words that differ in the messages of the two copies; `listenerAddrs` is
the set of keys of the map `listenerAddrs`. -/
def bindLoop {M Lis : Type} [DecidableEq M] (E : ServeEnv M Lis) (fn what : String) :
    List String → List M → List Lis → List (ServeEvent M Lis) → BindResult M Lis
  | [], _, listeners, evs => { err := none, listeners := listeners, events := evs }
  | addr :: rest, listenerAddrs, listeners, evs =>
    match E.NewMultiaddr addr with
    | .error err =>
      { err := some (fn ++ ": invalid " ++ what ++ " address: " ++ addr.quote ++
          " (err: " ++ err ++ ")"),
        listeners := listeners, events := evs }
    | .ok maddr =>
      if maddr ∈ listenerAddrs then
        bindLoop E fn what rest listenerAddrs listeners evs
      else
        match E.Listen maddr with
        | .error err =>
          { err := some (fn ++ ": manet.Listen(" ++ E.MaddrString maddr ++ ") failed: " ++ err),
            listeners := listeners, events := evs ++ [.listen maddr] }
        | .ok lis =>
          bindLoop E fn what rest (maddr :: listenerAddrs) (listeners ++ [lis])
            (evs ++ [.listen maddr])

/-- The binding loop of `serveHTTPRemoteApi` (`for _, addr := range
rapiAddrs`): every address is bound, there is no map of bound addresses. -/
def bindAll {M Lis : Type} (E : ServeEnv M Lis) :
    List String → List Lis → List (ServeEvent M Lis) → BindResult M Lis
  | [], listeners, evs => { err := none, listeners := listeners, events := evs }
  | addr :: rest, listeners, evs =>
    match E.NewMultiaddr addr with
    | .error err =>
      { err := some ("serveHTTPRemoteApi: invalid remote api address: " ++ addr.quote ++
          " (err: " ++ err ++ ")"),
        listeners := listeners, events := evs }
    | .ok maddr =>
      match E.Listen maddr with
      | .error err =>
        { err := some ("serveHTTPRemoteApi: manet.Listen(" ++ E.MaddrString maddr ++
            ") failed: " ++ err),
          listeners := listeners, events := evs ++ [.listen maddr] }
      | .ok lis => bindAll E rest (listeners ++ [lis]) (evs ++ [.listen maddr])

/-- The tail shared by the three serve functions: one `go` statement per
listener, then the `go` statement closing `errc`, then `return errc, nil`. -/
def spawnServe {M Lis : Type} (listeners : List Lis) (evs : List (ServeEvent M Lis)) :
    ServeResult M Lis :=
  { outcome := .channel, listeners := listeners,
    events := evs ++ listeners.map .goServe ++ [.goClose] }

/-- Source `serveHTTPApi`: the address list, from the option `--api`
(`apiOpt`, absent is the empty text) or from the config. -/
def apiAddrsOf (cfg : ServeConfig) (apiOpt : Option String) : List String :=
  let apiAddr := apiOpt.getD ""
  if apiAddr = "" then cfg.API else [apiAddr]

/-- Source `serveHTTPApi`. -/
def serveHTTPApi {M Lis : Type} [DecidableEq M] (E : ServeEnv M Lis) (apiOpt : Option String) :
    ServeResult M Lis :=
  match E.GetConfig with
  | .error err =>
    { outcome := .failed ("serveHTTPApi: GetConfig() failed: " ++ err), listeners := [],
      events := [] }
  | .ok cfg =>
    match E.TakeListeners "io.ipfs.api" with
    | .error err =>
      { outcome := .failed ("serveHTTPApi: socket activation failed: " ++ err),
        listeners := [], events := [] }
    | .ok listeners0 =>
      let b := bindLoop E "serveHTTPApi" "API" (apiAddrsOf cfg apiOpt)
        (listeners0.map E.Multiaddr) listeners0 []
      match b.err with
      | some err => { outcome := .failed err, listeners := b.listeners, events := b.events }
      | none =>
        match E.ConstructNode with
        | some err =>
          { outcome := .failed ("serveHTTPApi: ConstructNode() failed: " ++ err),
            listeners := b.listeners, events := b.events }
        | none =>
          match b.listeners with
          | [] => { outcome := .indexOutOfRange, listeners := [], events := b.events }
          | l0 :: ls =>
            match E.SetAPIAddr (E.Multiaddr l0) with
            | some err =>
              { outcome := .failed ("serveHTTPApi: SetAPIAddr() failed: " ++ err),
                listeners := l0 :: ls,
                events := b.events ++ [.setAPIAddr (E.Multiaddr l0)] }
            | none => spawnServe (l0 :: ls) (b.events ++ [.setAPIAddr (E.Multiaddr l0)])

/-- Source `serveHTTPGateway`. -/
def serveHTTPGateway {M Lis : Type} [DecidableEq M] (E : ServeEnv M Lis) :
    ServeResult M Lis :=
  match E.GetConfig with
  | .error err =>
    { outcome := .failed ("serveHTTPGateway: GetConfig() failed: " ++ err), listeners := [],
      events := [] }
  | .ok cfg =>
    match E.TakeListeners "io.ipfs.gateway" with
    | .error err =>
      { outcome := .failed ("serveHTTPGateway: socket activation failed: " ++ err),
        listeners := [], events := [] }
    | .ok listeners0 =>
      let b := bindLoop E "serveHTTPGateway" "gateway" cfg.Gateway
        (listeners0.map E.Multiaddr) listeners0 []
      match b.err with
      | some err => { outcome := .failed err, listeners := b.listeners, events := b.events }
      | none =>
        match E.ConstructNode with
        | some err =>
          { outcome := .failed ("serveHTTPGateway: ConstructNode() failed: " ++ err),
            listeners := b.listeners, events := b.events }
        | none => spawnServe b.listeners b.events

/-- Source `serveHTTPRemoteApi`. -/
def serveHTTPRemoteApi {M Lis : Type} (E : ServeEnv M Lis) : ServeResult M Lis :=
  match E.GetConfig with
  | .error err =>
    { outcome := .failed ("serveHTTPRemoteApi: GetConfig() failed: " ++ err),
      listeners := [], events := [] }
  | .ok cfg =>
    if cfg.Libp2pStreamMounting = false then
      { outcome := .failed "serveHTTPRemoteApi: libp2p stream mounting must be enabled",
        listeners := [], events := [] }
    else
      let b := bindAll E cfg.RemoteAPI [] []
      match b.err with
      | some err => { outcome := .failed err, listeners := b.listeners, events := b.events }
      | none =>
        match E.ConstructNode with
        | some err =>
          { outcome := .failed ("serveHTTPRemoteApi: ConstructNode() failed: " ++ err),
            listeners := b.listeners, events := b.events }
        | none =>
          match b.listeners with
          | [] => { outcome := .indexOutOfRange, listeners := [], events := b.events }
          | l0 :: ls =>
            match E.ForwardRemote (E.Multiaddr l0) with
            | some err =>
              { outcome := .failed ("serveHTTPRemoteApi: ForwardRemote() failed: " ++ err),
                listeners := l0 :: ls,
                events := b.events ++ [.forwardRemote (E.Multiaddr l0)] }
            | none => spawnServe (l0 :: ls) (b.events ++ [.forwardRemote (E.Multiaddr l0)])

/-- An address of the list is malformed, or is not yet bound and fails to
bind: `ma.NewMultiaddr` fails on it, or it parses to a multiaddr outside
`bound` on which `manet.Listen` fails. -/
def BindFails {M Lis : Type} (E : ServeEnv M Lis) (bound : List M) (addrs : List String) :
    Prop :=
  ∃ addr ∈ addrs,
    (∃ err, E.NewMultiaddr addr = .error err) ∨
    (∃ m err, E.NewMultiaddr addr = .ok m ∧ m ∉ bound ∧ E.Listen m = .error err)

/-- Sample outcomes for the serve functions: multiaddrs and listeners are
texts, a listener is the text of its multiaddr; addresses starting with `/`
parse to themselves, `/ip4/0.0.0.0/tcp/80` cannot be bound; `pre` are the
pre-bound listeners of every service. -/
def sampleServeEnv (cfg : ServeConfig) (pre : List String) : ServeEnv String String where
  GetConfig := .ok cfg
  TakeListeners := fun _ => .ok pre
  NewMultiaddr := fun a =>
    if a.data.head? = some '/' then .ok a else .error "must begin with /"
  Listen := fun m =>
    if m = "/ip4/0.0.0.0/tcp/80" then .error "permission denied" else .ok m
  Multiaddr := fun l => l
  MaddrString := fun m => m
  ConstructNode := none
  SetAPIAddr := fun _ => none
  ForwardRemote := fun _ => none

/-- Sample outcomes of the config-migration step: `MigrateConfig` changes
nothing and reports `migrated`, `repo.SetConfig` has the outcome `set`. -/
def sampleMigrateEnv (migrated : Bool) (set : Option Error) : MigrateEnv :=
  { MigrateConfig := fun cfg _ _ => (cfg, migrated), SetConfig := fun _ => set }

/-- Sample config with the price-oracle text `oracle`. -/
def sampleOracleCfg (oracle : String) : Config :=
  { ChainInfo := { ChainId := 199, Endpoint := "https://rpc.bt.io/", CurrentFactory := "0xf2",
                   PriceOracleAddress := oracle } }

/-- Sample config of the serve functions: the second API address cannot be
bound, the second gateway address is malformed, the remote API address
cannot be bound. -/
def sampleBadServeCfg : ServeConfig :=
  { API := ["/ip4/127.0.0.1/tcp/5001", "/ip4/0.0.0.0/tcp/80"],
    Gateway := ["/ip4/127.0.0.1/tcp/8080", "localhost:8080"],
    RemoteAPI := ["/ip4/0.0.0.0/tcp/80"],
    Libp2pStreamMounting := true }

/-- Sample config of the serve functions with a repeated API address and a
gateway address that is already bound by a pre-bound listener. -/
def sampleServeCfg : ServeConfig :=
  { API := ["/ip4/127.0.0.1/tcp/5001", "/ip4/127.0.0.1/tcp/5002", "/ip4/127.0.0.1/tcp/5001"],
    Gateway := ["/ip4/127.0.0.1/tcp/8080", "/ip4/127.0.0.1/tcp/9000"],
    RemoteAPI := [],
    Libp2pStreamMounting := false }

/-! ## Routing option -/

/-- The values assigned to `ncfg.Routing`; `D` is the type of the arguments
of `libp2p.ConstructDelegatedRouting` taken from the config. -/
inductive RoutingOption (D : Type) where
  | DHTClientOption
  | DHTOption
  | DHTServerOption
  | NilRouterOption
  | ConstructDelegatedRouting (args : D)
deriving DecidableEq, Repr

/-- Source `daemonFunc`, the statement `switch routingOption`: `.error` is
the error `daemonFunc` returns, `.ok` the value assigned to `ncfg.Routing`
before `core.NewNode`. -/
def routingSwitch {D : Type} (delegated : D) (routingOption : String) :
    Except Error (RoutingOption D) :=
  if routingOption = "supernode" then
    .error "supernode routing was never fully implemented and has been removed"
  else if routingOption = "dhtclient" then .ok .DHTClientOption
  else if routingOption = "dht" then .ok .DHTOption
  else if routingOption = "dhtserver" then .ok .DHTServerOption
  else if routingOption = "none" then .ok .NilRouterOption
  else if routingOption = "custom" then .ok (.ConstructDelegatedRouting delegated)
  else .error ("unrecognized routing option: " ++ routingOption)

/-- Source `daemonFunc`, from `routingOption, _ := req.Options[...]` to the
end of the `switch`.  `opt` is the option `--routing` (absent is the empty
text) and `cfgRoutingType` the text `cfg.Routing.Type.String()`. -/
def daemonFunc_routing {D : Type} (delegated : D) (opt : Option String)
    (cfgRoutingType : String) : Except Error (RoutingOption D) :=
  let routingOption := opt.getD ""
  let routingOption :=
    if routingOption = "default" then
      if cfgRoutingType = "" then "dht" else cfgRoutingType
    else routingOption
  routingSwitch delegated routingOption

/-! ## Last-online report -/

/-- Outcomes of the calls of `CheckExistLastOnlineReportV2`; `R` is the type
of last-online records. -/
structure OnlineEnv (R : Type) where
  /-- Outcome of `chain.GetLastOnline()`; `.ok none` is a nil record. -/
  GetLastOnline : Except Error (Option R)
  /-- Text `config.DefaultServicesConfig().OnlineServerDomain`. -/
  OnlineServerDomain : String
  /-- Text `config.DefaultServicesConfigTestnet().OnlineServerDomain`. -/
  OnlineServerDomainTestnet : String
  /-- Outcome of `commands.SyncConfigOnlineCfgV2(configRoot, domain,
  reportOnline)`. -/
  SyncConfigOnlineCfgV2 : String → String → Bool → Option Error
  /-- Error of `spin.GetLastOnlineInfoWhenNodeMigration(ctx, cfg)`. -/
  GetLastOnlineInfoWhenNodeMigration : Option Error

/-- Calls of `CheckExistLastOnlineReportV2` in order. -/
inductive OnlineEvent where
  | getLastOnline
  | syncConfigOnlineCfgV2 (configRoot domain : String) (reportOnline : Bool)
  | getLastOnlineInfoWhenNodeMigration
deriving DecidableEq, Repr

/-- Result of `CheckExistLastOnlineReportV2`: the returned error and the
calls made. -/
structure OnlineResult where
  err : Option Error
  events : List OnlineEvent
deriving DecidableEq, Repr

/-- Source `CheckExistLastOnlineReportV2`.  `storageHostEnabled` is
`cfg.Experimental.StorageHostEnabled`.  The last test compares the variable
`err`, nil at that point, with the error of the call, and returns `err`. -/
def CheckExistLastOnlineReportV2 {R : Type} (E : OnlineEnv R) (storageHostEnabled : Bool)
    (configRoot : String) (chainId : Int) : OnlineResult :=
  match E.GetLastOnline with
  | .error err => { err := some err, events := [.getLastOnline] }
  | .ok lastOnline =>
    let ev1 : List OnlineEvent := [.getLastOnline]
    let reportOnline : Bool := if storageHostEnabled then true else false
    let onlineServerDomain :=
      if chainId = 199 then E.OnlineServerDomain else E.OnlineServerDomainTestnet
    let sync : Option Error :=
      if lastOnline.isNone then E.SyncConfigOnlineCfgV2 configRoot onlineServerDomain reportOnline
      else none
    let ev2 : List OnlineEvent :=
      if lastOnline.isNone then
        ev1 ++ [.syncConfigOnlineCfgV2 configRoot onlineServerDomain reportOnline]
      else ev1
    match sync with
    | some err => { err := some err, events := ev2 }
    | none =>
      let err : Option Error := none
      if lastOnline.isNone then
        if err ≠ E.GetLastOnlineInfoWhenNodeMigration then
          { err := err, events := ev2 ++ [.getLastOnlineInfoWhenNodeMigration] }
        else
          { err := none, events := ev2 ++ [.getLastOnlineInfoWhenNodeMigration] }
      else
        { err := none, events := ev2 }

/-- Sample outcomes of the last-online check: no record is stored, the
config sync has the outcome `sync`, the lookup of the last-online
information has the outcome `lookup`. -/
def sampleOnlineEnv (sync lookup : Option Error) : OnlineEnv Nat :=
  { GetLastOnline := .ok none, OnlineServerDomain := "https://online.btfs.io",
    OnlineServerDomainTestnet := "https://online-test.btfs.io",
    SyncConfigOnlineCfgV2 := fun _ _ _ => sync,
    GetLastOnlineInfoWhenNodeMigration := lookup }

/-- Sample outcomes after the factory upgrade: the state store is re-opened,
storing the chain ID has the outcome `store`. -/
def sampleReinitEnv (store : Option Error) : ReinitEnv :=
  { InitStateStore := fun _ => none, StoreChainIdIfNotExists := fun _ => store }

/-- Sample config of the serve functions without any address. -/
def sampleEmptyServeCfg : ServeConfig :=
  { API := [], Gateway := [], RemoteAPI := [], Libp2pStreamMounting := false }

/-! ## `daemonFunc` from `fsrepo.Open` to its last `return`, with its deferred calls

The statements of `daemonFunc` in source order, with the `defer` statements
and every `return`.  Calls into other packages are outcomes given by
`DaemonEnv`; the slices embedded above are used as they are.  Left out: the
statements before `fsrepo.Open` other than the first `defer` (their only
other trace is `inited`), statements that can neither return nor touch a
deferred call (among them the direct call `guide.TryShutdownServer()` after
the plugins are started, which is not a deferred call), run-time panics, and
the self test, which may end the process without running deferred calls. -/

/-- Calls made by the deferred functions of `daemonFunc` and, inside
`node.Close()`, on the repository, with the result the call returned; `H` is
the type of state-store handles. -/
inductive Teardown (H : Type) where
  | nodeClose (res : Option Error)
  | repoCloseByNode (res : Option Error)
  | stateStoreClose (h : H) (res : Option Error)
  | guideTryShutdownServer
  | repoClose (res : Option Error)
deriving DecidableEq, Repr

/-- The call closes the repository, which releases the repository lock when
it is the first such call. -/
def Teardown.closesRepo {H : Type} : Teardown H → Bool
  | .repoCloseByNode _ => true
  | .repoClose _ => true
  | _ => false

/-- The call closes the state store. -/
def Teardown.isStateStoreClose {H : Type} : Teardown H → Bool
  | .stateStoreClose _ _ => true
  | _ => false

/-- The deferred functions of `daemonFunc`, in source order: the function
printing a line when `_err != nil`, `repo.Close()`,
`guide.TryShutdownServer()`, the function closing the variable `statestore`
and the function closing `node`. -/
inductive DeferredFn where
  | printLine
  | repoClose
  | guideTryShutdownServer
  | statestoreClose
  | nodeClose
deriving DecidableEq, Repr

/-- What the close calls do and return.  `nodeClosesRepo` says whether
`node.Close()` closes the repository itself, as the comment above
`defer repo.Close()` states (`The node will also close the repo`). -/
structure CloseEnv (H : Type) where
  nodeCloseRes : Option Error
  nodeClosesRepo : Bool
  repoCloseByNodeRes : Option Error
  stateStoreCloseRes : H → Option Error
  repoCloseRes : Option Error

/-- Variables of `daemonFunc` that matter at a return: `statestore` (`none`
before its declaration), `needUpdateFactory`, and the deferred functions in
the order in which their `defer` statements were executed. -/
structure DaemonState (H : Type) where
  statestore : Option H
  needUpdateFactory : Bool
  deferred : List DeferredFn
deriving DecidableEq, Repr

/-- One deferred function, run with the variables `st` and the named result
`_err`: the calls it makes and the value of `_err` after it.  The source
assigns `_err` in none of them: `printLine` only reads it,
`defer repo.Close()` and `defer guide.TryShutdownServer()` drop the result of
the call, and the two function literals call `statestore.Close()` and
`node.Close()` as statements.  With no handle in `statestore` no close is
recorded. -/
def runDeferredFn {H : Type} (C : CloseEnv H) (st : DaemonState H) (_err : Option ErrValue) :
    DeferredFn → List (Teardown H) × Option ErrValue
  | .printLine => ([], _err)
  | .repoClose => ([.repoClose C.repoCloseRes], _err)
  | .guideTryShutdownServer => ([.guideTryShutdownServer], _err)
  | .statestoreClose =>
    match st.statestore with
    | some h => ([.stateStoreClose h (C.stateStoreCloseRes h)], _err)
    | none => ([], _err)
  | .nodeClose =>
    (.nodeClose C.nodeCloseRes ::
      (if C.nodeClosesRepo then [.repoCloseByNode C.repoCloseByNodeRes] else []), _err)

/-- Go semantics of `defer`: at a return the deferred functions run in the
reverse of the order in which the `defer` statements were executed, with
the variables as they are at the return, each one starting from the value
of `_err` the one before it left. -/
def runDeferred {H : Type} (C : CloseEnv H) (st : DaemonState H) :
    List DeferredFn → Option ErrValue → List (Teardown H) × Option ErrValue
  | [], _err => ([], _err)
  | d :: ds, _err =>
    let later := runDeferred C st ds _err
    let this := runDeferredFn C st later.2 d
    (later.1 ++ this.1, this.2)

/-- A `return` statement reached: the returned value and the variables. -/
structure Return (H : Type) where
  ret : Option ErrValue
  st : DaemonState H
deriving DecidableEq, Repr

/-- Outcomes of the calls of `daemonFunc`, in source order. -/
structure DaemonEnv (Addr H : Type) where
  configRoot : String
  /-- Error of `fsrepo.Open(cctx.ConfigRoot)`. -/
  fsrepoOpen : Option Error
  /-- Outcome of `cctx.GetConfig()`. -/
  GetConfig : Except Error Config
  inited : Bool
  hasHval : Bool
  migrate : MigrateEnv
  ToPrivKey : Option Error
  FromIcPrivateKey : Option Error
  DecodeString : Option Error
  /-- Field `cfg.SimpleMode`. -/
  SimpleMode : Bool
  /-- Outcome of the first `chain.InitStateStore(configRoot)`. -/
  InitStateStore : Except Error H
  DefaultChain : Int
  chainIdOpt : Option String
  GetChainIdFromDisk : Except Error Int
  /-- Outcome of `chainconfig.InitChainConfig(cfg, stored, chainid)`. -/
  InitChainConfig : Config → Bool → Int → Except Error (ChainConfig Addr)
  addressLib : AddressLib Addr
  migration : MigrationEnv Addr
  reinit : ReinitEnv
  /-- Handle returned by the second `chain.InitStateStore` when it succeeds. -/
  reopened : H
  /-- Value it returns along with an error. -/
  reopenFailed : Option H
  InitChain : Option Error
  IsSynced : Except Error Bool
  WaitSynced : Option Error
  InitSettlement : Option Error
  UpgradeTo : Option Error
  CheckExistLastOnlineReportV2 : Option Error
  CheckHubDomainConfig : Option Error
  routingOpt : Option String
  cfgRoutingType : String
  /-- Error of `core.NewNode(req.Context, ncfg)`. -/
  NewNode : Option Error
  PluginsStart : Option Error
  /-- Error result of `serveHTTPApi(req, cctx, SimpleMode)`. -/
  serveHTTPApi : Option Error
  mount : Bool
  offline : Bool
  mountFuse : Option Error
  /-- Error result of `maybeRunGC(req, node)`. -/
  maybeRunGC : Option Error
  serveHTTPGateway : Option Error
  /-- Test `len(cfg.Addresses.RemoteAPI) > 0`. -/
  remoteAPIConfigured : Bool
  serveHTTPRemoteApi : Option Error
  GetApi : Option Error
  /-- Values received from the merged error channel until it is closed. -/
  drained : List (Option ErrValue)

/-- The statement `if err != nil { return err }` after a call with the
error `o`: return at `st`, or go on with `k`. -/
def orReturn {H α : Type} (st : DaemonState H) (o : Option Error)
    (k : Except (Return H) α) : Except (Return H) α :=
  match o with
  | some err => .error { ret := some (.plain err), st := st }
  | none => k

/-- The event is a call of `chain.InitStateStore`. -/
def Event.isInitStateStore {Addr : Type} : Event Addr → Bool
  | .initStateStore _ => true
  | _ => false

/-- Source `daemonFunc`, from `fsrepo.Open` to the `defer` that closes the
variable `statestore`: yields the variables and the config. -/
def daemonFunc_openRepo {Addr H : Type} (env : DaemonEnv Addr H) :
    Except (Return H) (DaemonState H × Config) :=
  let st0 : DaemonState H :=
    { statestore := none, needUpdateFactory := false, deferred := [.printLine] }
  orReturn st0 env.fsrepoOpen <|
    let st1 : DaemonState H := { st0 with deferred := st0.deferred ++ [.repoClose] }
    match env.GetConfig with
    | .error err => .error { ret := some (.plain err), st := st1 }
    | .ok cfg0 =>
      let m := daemonFunc_migrateConfig env.migrate env.inited env.hasHval cfg0
      match m.flow with
      | .returned r => .error { ret := r.map .plain, st := st1 }
      | .proceed =>
        orReturn st1 env.ToPrivKey <|
        orReturn st1 env.FromIcPrivateKey <|
        orReturn st1 env.DecodeString <|
          let st2 : DaemonState H :=
            if env.SimpleMode = false then
              { st1 with deferred := st1.deferred ++ [.guideTryShutdownServer] }
            else st1
          match env.InitStateStore with
          | .error err => .error { ret := some (.plain err), st := st2 }
          | .ok statestore =>
            .ok ({ st2 with statestore := some statestore,
                            deferred := st2.deferred ++ [.statestoreClose] }, m.cfg)

/-- Source `daemonFunc`, the block `if SimpleMode == false { ... }` from
`getChainID` to `CheckHubDomainConfig`.  The variable `statestore` is
assigned again exactly when the factory-upgrade slice has called
`chain.InitStateStore`. -/
def daemonFunc_chain {Addr H : Type} (env : DaemonEnv Addr H) (st : DaemonState H)
    (cfg : Config) : Except (Return H) (DaemonState H) :=
  if env.SimpleMode = false then
    let g := getChainID env.DefaultChain env.chainIdOpt cfg env.GetChainIdFromDisk
    orReturn st g.err <|
      match env.InitChainConfig cfg g.stored g.chainId with
      | .error err => .error { ret := some (.plain err), st := st }
      | .ok chainCfg =>
        let u := daemonFunc_upgradeFactory env.addressLib env.migration env.reinit g.chainId
          chainCfg cfg env.configRoot
        let statestore : Option H :=
          if u.events.any Event.isInitStateStore then
            match env.reinit.InitStateStore env.configRoot with
            | none => some env.reopened
            | some _ => env.reopenFailed
          else st.statestore
        let st1 : DaemonState H :=
          { st with statestore := statestore, needUpdateFactory := u.needUpdateFactory }
        match u.flow with
        | .returned r => .error { ret := r.map .plain, st := st1 }
        | .proceed =>
          orReturn st1 env.InitChain <|
            match env.IsSynced with
            | .error err => .error { ret := some (.plain ("is synced: " ++ err)), st := st1 }
            | .ok isSynced =>
              orReturn st1
                (if isSynced then none
                 else env.WaitSynced.map (fun err => "waiting backend sync: " ++ err)) <|
              orReturn st1 env.InitSettlement <|
                match (daemonFunc_upgradeVault env.UpgradeTo).flow with
                | .returned r => .error { ret := r.map .plain, st := st1 }
                | .proceed =>
                  orReturn st1 env.CheckExistLastOnlineReportV2 <|
                  orReturn st1 env.CheckHubDomainConfig <|
                    .ok st1
  else .ok st

/-- Source `daemonFunc`, from the routing option to the `defer` that closes
the node. -/
def daemonFunc_node {Addr H : Type} (env : DaemonEnv Addr H) (st : DaemonState H) :
    Except (Return H) (DaemonState H) :=
  match daemonFunc_routing () env.routingOpt env.cfgRoutingType with
  | .error err => .error { ret := some (.plain err), st := st }
  | .ok _ =>
    orReturn st env.NewNode <|
      .ok { st with deferred := st.deferred ++ [.nodeClose] }

/-- Source `daemonFunc`, from `fsrepo.Open` to the point where the node is
constructed and its close deferred: `.ok` yields the variables there,
`.error` is a `return` reached before. -/
def daemonFunc_toNode {Addr H : Type} (env : DaemonEnv Addr H) :
    Except (Return H) (DaemonState H) :=
  match daemonFunc_openRepo env with
  | .error r => .error r
  | .ok (st, cfg) =>
    match daemonFunc_chain env st cfg with
    | .error r => .error r
    | .ok st1 => daemonFunc_node env st1

/-- The statement `if err != nil { return err }` in the part of `daemonFunc`
after the node is constructed. -/
def orReturnAt {H : Type} (st : DaemonState H) (o : Option Error) (k : Return H) : Return H :=
  match o with
  | some err => { ret := some (.plain err), st := st }
  | none => k

/-- Source `daemonFunc`, from `cctx.Plugins.Start(node)` to the final
`return errs`. -/
def daemonFunc_fromNode {Addr H : Type} (env : DaemonEnv Addr H) (st : DaemonState H) :
    Return H :=
  orReturnAt st env.PluginsStart <|
  orReturnAt st env.serveHTTPApi <|
  orReturnAt st
    (if env.mount && env.offline then
      some "mount is not currently supported in offline mode" else none) <|
  orReturnAt st (if env.mount then env.mountFuse else none) <|
  orReturnAt st env.maybeRunGC <|
  orReturnAt st env.serveHTTPGateway <|
  orReturnAt st (if env.remoteAPIConfigured then env.serveHTTPRemoteApi else none) <|
  orReturnAt st (if env.SimpleMode = false then env.GetApi else none) <|
    { ret := (daemonFunc_collect env.drained).map (fun m => .multi m.Errors), st := st }

/-- Result of `daemonFunc`: the value of `_err` handed to the caller once the
deferred functions have run, and the calls they made. -/
structure DaemonResult (H : Type) where
  _err : Option ErrValue
  teardown : List (Teardown H)
deriving DecidableEq, Repr

/-- Source `daemonFunc` from `fsrepo.Open` on: the `return` reached sets
`_err`, then the deferred functions run. -/
def daemonFunc {Addr H : Type} (C : CloseEnv H) (env : DaemonEnv Addr H) : DaemonResult H :=
  let r : Return H :=
    match daemonFunc_toNode env with
    | .error r => r
    | .ok st => daemonFunc_fromNode env st
  let d := runDeferred C r.st r.st.deferred r.ret
  { _err := d.2, teardown := d.1 }

/-- Sample outcomes of a whole run on chain 199 with state-store handles
`0` (first open) and `1` (re-opened): every call succeeds, `factory` is the
configured factory text, `apiErr` the error of the API server start. -/
def sampleDaemonEnv (simpleMode : Bool) (factory : String) (apiErr : Option Error) :
    DaemonEnv String Nat :=
  { configRoot := "/root/.btfs"
    fsrepoOpen := none
    GetConfig := .ok (sampleCfg factory)
    inited := true
    hasHval := false
    migrate := sampleMigrateEnv false none
    ToPrivKey := none
    FromIcPrivateKey := none
    DecodeString := none
    SimpleMode := simpleMode
    InitStateStore := .ok 0
    DefaultChain := 199
    chainIdOpt := none
    GetChainIdFromDisk := .ok 199
    InitChainConfig := fun _ _ _ => .ok sampleChainCfg
    addressLib := textAddressLib
    migration := sampleEnv none (.ok "config.backup7") none
    reinit := sampleReinitEnv none
    reopened := 1
    reopenFailed := none
    InitChain := none
    IsSynced := .ok true
    WaitSynced := none
    InitSettlement := none
    UpgradeTo := none
    CheckExistLastOnlineReportV2 := none
    CheckHubDomainConfig := none
    routingOpt := some "default"
    cfgRoutingType := "dht"
    NewNode := none
    PluginsStart := none
    serveHTTPApi := apiErr
    mount := false
    offline := false
    mountFuse := none
    maybeRunGC := none
    serveHTTPGateway := none
    remoteAPIConfigured := false
    serveHTTPRemoteApi := none
    GetApi := none
    drained := [none, none] }

/-- Sample close calls: `node.Close()` closes the repository and fails with
`context canceled`, the other closes succeed. -/
def sampleCloseEnv : CloseEnv Nat :=
  { nodeCloseRes := some "context canceled", nodeClosesRepo := true,
    repoCloseByNodeRes := none, stateStoreCloseRes := fun _ => none, repoCloseRes := none }

/-! ## Theorems: chain identity -/

/-- Shared fact: a text mentions each of the two pieces it is assembled
around. -/
theorem mentions_of_assembled (a x b y c : String) :
    Mentions (a ++ x ++ b ++ y ++ c) x ∧ Mentions (a ++ x ++ b ++ y ++ c) y := by
  constructor
  · exact ⟨a.data, b.data ++ y.data ++ c.data, by simp [String.data_append]⟩
  · exact ⟨a.data ++ x.data ++ b.data, c.data, by simp [String.data_append]⟩

/-- C1, as stated, fails: with nothing stored and the CLI input `-5` (which
parses, and is non-zero) the resolved chain ID is the default 199, not `-5`. -/
theorem getChainID_first_run_negative_input :
    getInputChainID (some "-5") = .ok (-5) ∧ (-5 : Int) ≠ 0 ∧
      getChainID 199 (some "-5") ⟨⟨0, "", "", ""⟩⟩ (.ok 0) =
        { chainId := 199, stored := false, err := none } ∧
      (getChainID 199 (some "-5") ⟨⟨0, "", "", ""⟩⟩ (.ok 0)).chainId ≠ -5 := by
  decide

/-- C1, amended: on a first run (`storeChainid = 0`, both reads succeed)
`getChainID` returns no error, `stored = false`, and as chain ID the CLI input
if the input is positive, otherwise `cc.DefaultChain`. -/
theorem getChainID_first_run (DefaultChain : Int) (opt : Option String) (cfg : Config)
    (input : Int) (hin : getInputChainID opt = .ok input) :
    getChainID DefaultChain opt cfg (.ok 0) =
      { chainId := if input > 0 then input else DefaultChain, stored := false, err := none } := by
  simp [getChainID, hin]

/-- Witness of `getChainID_first_run`: input `199` on a fresh repository. -/
theorem getChainID_first_run_witness :
    getInputChainID (some "199") = .ok 199 ∧
      getChainID 1029 (some "199") ⟨⟨0, "", "", ""⟩⟩ (.ok 0) =
        { chainId := if (199 : Int) > 0 then 199 else 1029, stored := false, err := none } :=
  ⟨by decide, getChainID_first_run 1029 (some "199") ⟨⟨0, "", "", ""⟩⟩ 199 (by decide)⟩

/-- C2, as stated, fails: stored 199, configured 199 and the CLI input `-1`
(neither zero nor the stored ID) resolve to chain 199 with `stored = true`
and no error. -/
theorem getChainID_conflict_negative_input :
    getInputChainID (some "-1") = .ok (-1) ∧
      ¬ ((-1 : Int) = 0 ∨ (-1 : Int) = 199) ∧
      getChainID 199 (some "-1") ⟨⟨199, "", "", ""⟩⟩ (.ok 199) =
        { chainId := 199, stored := true, err := none } := by
  decide

/-- Shared fact: `getChainID` on the branch with a stored chain ID outside
the legacy path. -/
theorem getChainID_stored_branch (DefaultChain : Int) (opt : Option String) (cfg : Config)
    (storeChainid input : Int) (hin : getInputChainID opt = .ok input)
    (hstore : storeChainid > 0)
    (hcfg : cfg.ChainInfo.ChainId ≠ 0 ∨ cfg.ChainInfo.Endpoint ≠ "") :
    getChainID DefaultChain opt cfg (.ok storeChainid) =
      if storeChainid ≠ cfg.ChainInfo.ChainId then
        { chainId := 0, stored := false,
          err := some (cfgConflictMsg storeChainid cfg.ChainInfo.ChainId) }
      else if input > 0 ∧ storeChainid ≠ input then
        { chainId := 0, stored := false, err := some (inputConflictMsg storeChainid input) }
      else { chainId := storeChainid, stored := true, err := none } := by
  have hleg : ¬ (cfg.ChainInfo.ChainId = 0 ∧ cfg.ChainInfo.Endpoint = "") := by
    rintro ⟨h1, h2⟩
    rcases hcfg with h | h
    · exact h h1
    · exact h h2
  unfold getChainID
  simp only [hin]
  rw [if_pos hstore, if_neg hleg]

/-- C2, amended: with a stored chain ID `> 0` and a configured chain ID or
endpoint, `getChainID` succeeds with chain ID `storeChainid` and
`stored = true` if and only if the configured ID equals the stored one and the
CLI input is not positive or equals the stored one; in every other case it
returns an error with chain ID 0 and `stored = false`. -/
theorem getChainID_conflict_iff (DefaultChain : Int) (opt : Option String) (cfg : Config)
    (storeChainid input : Int) (hin : getInputChainID opt = .ok input)
    (hstore : storeChainid > 0)
    (hcfg : cfg.ChainInfo.ChainId ≠ 0 ∨ cfg.ChainInfo.Endpoint ≠ "") :
    (getChainID DefaultChain opt cfg (.ok storeChainid) =
        { chainId := storeChainid, stored := true, err := none } ↔
      (cfg.ChainInfo.ChainId = storeChainid ∧ (input ≤ 0 ∨ input = storeChainid))) ∧
    ((cfg.ChainInfo.ChainId = storeChainid ∧ (input ≤ 0 ∨ input = storeChainid)) ∨
      ∃ e, getChainID DefaultChain opt cfg (.ok storeChainid) =
        { chainId := 0, stored := false, err := some e }) := by
  rw [getChainID_stored_branch DefaultChain opt cfg storeChainid input hin hstore hcfg]
  by_cases h1 : storeChainid ≠ cfg.ChainInfo.ChainId
  · rw [if_pos h1]
    have hne : ¬ (cfg.ChainInfo.ChainId = storeChainid ∧
        (input ≤ 0 ∨ input = storeChainid)) := fun h => h1 h.1.symm
    refine ⟨⟨fun h => ?_, fun h => absurd h hne⟩, Or.inr ⟨_, rfl⟩⟩
    have h3 := congrArg ChainIDResult.stored h
    simp at h3
  · rw [if_neg h1]
    have h1e : cfg.ChainInfo.ChainId = storeChainid := (not_not.mp h1).symm
    by_cases h2 : input > 0 ∧ storeChainid ≠ input
    · rw [if_pos h2]
      have hne : ¬ (cfg.ChainInfo.ChainId = storeChainid ∧
          (input ≤ 0 ∨ input = storeChainid)) := by
        rintro ⟨_, h | h⟩
        · omega
        · exact h2.2 h.symm
      refine ⟨⟨fun h => ?_, fun h => absurd h hne⟩, Or.inr ⟨_, rfl⟩⟩
      have h3 := congrArg ChainIDResult.stored h
      simp at h3
    · rw [if_neg h2]
      have hok : cfg.ChainInfo.ChainId = storeChainid ∧
          (input ≤ 0 ∨ input = storeChainid) := by
        refine ⟨h1e, ?_⟩
        by_cases h3 : input > 0
        · right
          by_contra h4
          exact h2 ⟨h3, fun h => h4 h.symm⟩
        · left
          omega
      exact ⟨⟨fun _ => hok, fun _ => rfl⟩, Or.inl hok⟩

/-- Witness of `getChainID_conflict_iff`: stored 199, configured 199, CLI
input 1029, a conflict. -/
theorem getChainID_conflict_iff_witness :
    (getChainID 199 (some "1029") ⟨⟨199, "", "", ""⟩⟩ (.ok 199) =
        { chainId := 199, stored := true, err := none } ↔
      ((199 : Int) = 199 ∧ ((1029 : Int) ≤ 0 ∨ (1029 : Int) = 199))) ∧
    (((199 : Int) = 199 ∧ ((1029 : Int) ≤ 0 ∨ (1029 : Int) = 199)) ∨
      ∃ e, getChainID 199 (some "1029") ⟨⟨199, "", "", ""⟩⟩ (.ok 199) =
        { chainId := 0, stored := false, err := some e }) :=
  getChainID_conflict_iff 199 (some "1029") ⟨⟨199, "", "", ""⟩⟩ 199 1029 (by decide)
    (by decide) (Or.inl (by decide))

/-- C3: when the state store holds a chain ID `> 0` and `getChainID` returns
no error, the returned chain ID is the stored one, whatever the configured
chain ID, the endpoint and the `--chain-id` option are. -/
theorem getChainID_never_overrides_stored (DefaultChain : Int) (opt : Option String)
    (cfg : Config) (storeChainid : Int) (hstore : storeChainid > 0)
    (hok : (getChainID DefaultChain opt cfg (.ok storeChainid)).err = none) :
    (getChainID DefaultChain opt cfg (.ok storeChainid)).chainId = storeChainid := by
  unfold getChainID at hok ⊢
  cases hin : getInputChainID opt with
  | error e => simp [hin] at hok
  | ok input =>
    simp only [hin, hstore, if_true] at hok ⊢
    split_ifs at hok ⊢ <;> simp_all

/-- Witness of `getChainID_never_overrides_stored`: stored 199, configured
199, CLI input 199. -/
theorem getChainID_never_overrides_stored_witness :
    (getChainID 1029 (some "199") ⟨⟨199, "https://rpc.bt.io/", "", ""⟩⟩ (.ok 199)).chainId = 199 :=
  getChainID_never_overrides_stored 1029 (some "199") ⟨⟨199, "https://rpc.bt.io/", "", ""⟩⟩ 199
    (by decide) (by decide)

/-- C4: with a stored chain ID `> 0`, configured chain ID 0 and an empty
configured endpoint, `getChainID` returns no error, the stored chain ID and
`stored = false`, for every CLI input that parses. -/
theorem getChainID_legacy_adoption (DefaultChain : Int) (opt : Option String) (cfg : Config)
    (storeChainid input : Int) (hin : getInputChainID opt = .ok input)
    (hstore : storeChainid > 0) (hid : cfg.ChainInfo.ChainId = 0)
    (hep : cfg.ChainInfo.Endpoint = "") :
    getChainID DefaultChain opt cfg (.ok storeChainid) =
      { chainId := storeChainid, stored := false, err := none } := by
  simp [getChainID, hin, hstore, hid, hep]

/-- Witness of `getChainID_legacy_adoption`: stored 199, empty chain
section, CLI input 1029. -/
theorem getChainID_legacy_adoption_witness :
    getChainID 199 (some "1029") ⟨⟨0, "", "", ""⟩⟩ (.ok 199) =
      { chainId := 199, stored := false, err := none } :=
  getChainID_legacy_adoption 199 (some "1029") ⟨⟨0, "", "", ""⟩⟩ 199 1029 (by decide)
    (by decide) rfl rfl

/-- C5: with a stored chain ID `> 0` outside the legacy path, a configured
chain ID different from the stored one gives, for every CLI input that
parses, chain ID 0, `stored = false` and an error whose message mentions the
decimal text of the stored and of the configured chain ID; when the
configured ID equals the stored one and the CLI input is set (positive) and
differs from it, the message mentions the stored ID and the CLI input. -/
theorem getChainID_conflict_names_both (DefaultChain : Int) (opt : Option String)
    (cfg : Config) (storeChainid input : Int) (hin : getInputChainID opt = .ok input)
    (hstore : storeChainid > 0)
    (hcfg : cfg.ChainInfo.ChainId ≠ 0 ∨ cfg.ChainInfo.Endpoint ≠ "")
    (hconflict : cfg.ChainInfo.ChainId ≠ storeChainid ∨
      (input > 0 ∧ input ≠ storeChainid)) :
    ∃ msg, getChainID DefaultChain opt cfg (.ok storeChainid) =
        { chainId := 0, stored := false, err := some msg } ∧
      Mentions msg (fmtD storeChainid) ∧
      Mentions msg
        (fmtD (if cfg.ChainInfo.ChainId ≠ storeChainid then cfg.ChainInfo.ChainId else input)) := by
  rw [getChainID_stored_branch DefaultChain opt cfg storeChainid input hin hstore hcfg]
  by_cases hne : cfg.ChainInfo.ChainId ≠ storeChainid
  · have h1 : storeChainid ≠ cfg.ChainInfo.ChainId := fun h => hne h.symm
    rw [if_pos h1, if_pos hne]
    exact ⟨_, rfl, mentions_of_assembled _ _ _ _ _⟩
  · have h1 : ¬ storeChainid ≠ cfg.ChainInfo.ChainId := fun h => hne (fun h2 => h h2.symm)
    have h2 : input > 0 ∧ storeChainid ≠ input := by
      rcases hconflict with h | h
      · exact absurd h hne
      · exact ⟨h.1, fun h3 => h.2 h3.symm⟩
    rw [if_neg h1, if_pos h2, if_neg hne]
    exact ⟨_, rfl, mentions_of_assembled _ _ _ _ _⟩

/-- Witness of `getChainID_conflict_names_both`: stored 199 against
configured 80001 (any input, here 199), and stored 199, configured 199
against the CLI input 1029. -/
theorem getChainID_conflict_names_both_witness :
    (∃ msg, getChainID 199 (some "199") ⟨⟨80001, "", "", ""⟩⟩ (.ok 199) =
        { chainId := 0, stored := false, err := some msg } ∧
      Mentions msg (fmtD 199) ∧
      Mentions msg (fmtD (if (80001 : Int) ≠ 199 then 80001 else 199))) ∧
    (∃ msg, getChainID 199 (some "1029") ⟨⟨199, "", "", ""⟩⟩ (.ok 199) =
        { chainId := 0, stored := false, err := some msg } ∧
      Mentions msg (fmtD 199) ∧
      Mentions msg (fmtD (if (199 : Int) ≠ 199 then 199 else 1029))) :=
  ⟨getChainID_conflict_names_both 199 (some "199") ⟨⟨80001, "", "", ""⟩⟩ 199 199 (by decide)
      (by decide) (Or.inl (by decide)) (Or.inl (by decide)),
   getChainID_conflict_names_both 199 (some "1029") ⟨⟨199, "", "", ""⟩⟩ 199 1029 (by decide)
      (by decide) (Or.inl (by decide)) (Or.inr (by decide))⟩

/-! ## Theorems: vault-factory migration -/

/-- Shared fact: the statements after the decision leave `need = true`. -/
theorem upgradeSteps_need {Addr : Type} (L : AddressLib Addr) (E : MigrationEnv Addr)
    (chainid : Int) (chainCfg : ChainConfig Addr) (cfg : Config) (configRoot : String)
    (currFactory : String) :
    (upgradeSteps L E chainid chainCfg cfg configRoot currFactory).need = true := by
  unfold upgradeSteps
  dsimp only
  repeat' split
  all_goals rfl

/-- Shared fact: the result `need` is the decision computed before any
effect, whatever happens afterwards. -/
theorem need_eq_decision {Addr : Type} (L : AddressLib Addr) (E : MigrationEnv Addr)
    (chainid : Int) (chainCfg : ChainConfig Addr) (cfg : Config) (configRoot : String)
    (c : ChainConfig Addr) (hc : E.GetChainConfig chainid = some c) :
    (doIfNeedUpgradeFactoryToV2 L E chainid chainCfg cfg configRoot).need =
      (E.IsV2FactoryAddr (L.Hex c.CurrentFactory) &&
        (if cfg.ChainInfo.CurrentFactory = "" then true
         else if cfg.ChainInfo.CurrentFactory = L.Hex c.CurrentFactory then false
         else E.IsV1FactoryAddr cfg.ChainInfo.CurrentFactory)) := by
  unfold doIfNeedUpgradeFactoryToV2
  simp only [hc]
  cases hv2 : E.IsV2FactoryAddr (L.Hex c.CurrentFactory)
  · simp
  · simp only [Bool.true_eq_false, if_false, Bool.true_and]
    generalize (if cfg.ChainInfo.CurrentFactory = "" then true
      else if cfg.ChainInfo.CurrentFactory = L.Hex c.CurrentFactory then false
      else E.IsV1FactoryAddr cfg.ChainInfo.CurrentFactory) = nd
    cases nd
    · simp
    · simp [upgradeSteps_need]

/-- Shared fact: a triggered run is the run of the statements after the
decision. -/
theorem triggered_eq_upgradeSteps {Addr : Type} (L : AddressLib Addr) (E : MigrationEnv Addr)
    (chainid : Int) (chainCfg : ChainConfig Addr) (cfg : Config) (configRoot : String)
    (hneed : (doIfNeedUpgradeFactoryToV2 L E chainid chainCfg cfg configRoot).need = true) :
    ∃ c, E.GetChainConfig chainid = some c ∧
      doIfNeedUpgradeFactoryToV2 L E chainid chainCfg cfg configRoot =
        upgradeSteps L E chainid chainCfg cfg configRoot (L.Hex c.CurrentFactory) := by
  unfold doIfNeedUpgradeFactoryToV2 at hneed ⊢
  cases hc : E.GetChainConfig chainid with
  | none => simp [hc] at hneed
  | some c =>
    refine ⟨c, rfl, ?_⟩
    simp only [hc] at hneed ⊢
    cases hv2 : E.IsV2FactoryAddr (L.Hex c.CurrentFactory)
    · simp [hv2] at hneed
    · simp only [hv2, Bool.true_eq_false, if_false] at hneed ⊢
      generalize (if cfg.ChainInfo.CurrentFactory = "" then true
        else if cfg.ChainInfo.CurrentFactory = L.Hex c.CurrentFactory then false
        else E.IsV1FactoryAddr cfg.ChainInfo.CurrentFactory) = nd at hneed ⊢
      cases nd
      · simp at hneed
      · simp

/-- Shared fact: a run that is not triggered has no effect. -/
theorem not_triggered_eq {Addr : Type} (L : AddressLib Addr) (E : MigrationEnv Addr)
    (chainid : Int) (chainCfg : ChainConfig Addr) (cfg : Config) (configRoot : String)
    (c : ChainConfig Addr) (hc : E.GetChainConfig chainid = some c)
    (hneed : (doIfNeedUpgradeFactoryToV2 L E chainid chainCfg cfg configRoot).need = false) :
    doIfNeedUpgradeFactoryToV2 L E chainid chainCfg cfg configRoot =
      { need := false, err := none, cfg := cfg, chainCfg := chainCfg, events := [] } := by
  unfold doIfNeedUpgradeFactoryToV2 at hneed ⊢
  simp only [hc] at hneed ⊢
  cases hv2 : E.IsV2FactoryAddr (L.Hex c.CurrentFactory)
  · simp
  · simp only [hv2, Bool.true_eq_false, if_false] at hneed ⊢
    generalize (if cfg.ChainInfo.CurrentFactory = "" then true
      else if cfg.ChainInfo.CurrentFactory = L.Hex c.CurrentFactory then false
      else E.IsV1FactoryAddr cfg.ChainInfo.CurrentFactory) = nd at hneed ⊢
    cases nd
    · simp
    · simp [upgradeSteps_need] at hneed

/-- C6: for a chain ID with a known chain configuration,
`doIfNeedUpgradeFactoryToV2` decides `need = true` if and only if the code's
current factory is a v2 address and the configured factory is empty, or
differs from the current one and is a v1 address; when the configured factory
equals the current factory the migration is not triggered: `need = false`,
no error and no effect. -/
theorem migration_decision {Addr : Type} (L : AddressLib Addr) (E : MigrationEnv Addr)
    (chainid : Int) (chainCfg : ChainConfig Addr) (cfg : Config) (configRoot : String)
    (c : ChainConfig Addr) (hc : E.GetChainConfig chainid = some c) :
    ((doIfNeedUpgradeFactoryToV2 L E chainid chainCfg cfg configRoot).need = true ↔
      (E.IsV2FactoryAddr (L.Hex c.CurrentFactory) = true ∧
        (cfg.ChainInfo.CurrentFactory = "" ∨
          (cfg.ChainInfo.CurrentFactory ≠ L.Hex c.CurrentFactory ∧
            E.IsV1FactoryAddr cfg.ChainInfo.CurrentFactory = true)))) ∧
    (cfg.ChainInfo.CurrentFactory = L.Hex c.CurrentFactory →
      doIfNeedUpgradeFactoryToV2 L E chainid chainCfg cfg configRoot =
        { need := false, err := none, cfg := cfg, chainCfg := chainCfg, events := [] }) := by
  have hd := need_eq_decision L E chainid chainCfg cfg configRoot c hc
  constructor
  · rw [hd]
    by_cases h1 : cfg.ChainInfo.CurrentFactory = ""
    · simp [h1]
    · by_cases h2 : cfg.ChainInfo.CurrentFactory = L.Hex c.CurrentFactory
      · simp [h1, h2]
      · simp [h1, h2]
  · intro heq
    apply not_triggered_eq L E chainid chainCfg cfg configRoot c hc
    rw [hd]
    have h1 : cfg.ChainInfo.CurrentFactory ≠ "" := by
      rw [heq]
      exact L.hex_ne_empty _
    rw [if_neg h1, if_pos heq]
    simp

/-- Witness of `migration_decision`: on chain 199 with the current v2 factory
`0xf2` already configured, nothing is triggered. -/
theorem migration_decision_witness :
    doIfNeedUpgradeFactoryToV2 textAddressLib (sampleEnv none (.ok "config.backup7") none) 199
        sampleChainCfg (sampleCfg "0xf2") "/root/.btfs" =
      { need := false, err := none, cfg := sampleCfg "0xf2", chainCfg := sampleChainCfg,
        events := [] } :=
  (migration_decision textAddressLib (sampleEnv none (.ok "config.backup7") none) 199
    sampleChainCfg (sampleCfg "0xf2") "/root/.btfs" _ rfl).2 rfl

/-- C7: when a triggered migration fails at the state-store backup or at the
config backup, `doIfNeedUpgradeFactoryToV2` returns that error, `cfg` and
`chainCfg` are as before the call, and neither a write to them nor the persist
step `SyncConfigChainInfoV2` has happened. -/
theorem backup_failure_leaves_config {Addr : Type} (L : AddressLib Addr)
    (E : MigrationEnv Addr) (chainid : Int) (chainCfg : ChainConfig Addr) (cfg : Config)
    (configRoot : String) (v : Addr) (e : Error)
    (hneed : (doIfNeedUpgradeFactoryToV2 L E chainid chainCfg cfg configRoot).need = true)
    (hvault : E.GetStoredVaultAddr = .ok v) (hclose : E.Close = none)
    (hfail : E.BackUpStateStore configRoot (bkSuffixOf E) = some e ∨
      (E.BackUpStateStore configRoot (bkSuffixOf E) = none ∧
        E.BackUpConfigV2 (bkSuffixOf E) = .error e)) :
    ∃ evs, doIfNeedUpgradeFactoryToV2 L E chainid chainCfg cfg configRoot =
        { need := true, err := some e, cfg := cfg, chainCfg := chainCfg, events := evs } ∧
      ∀ ev ∈ evs, ev.isSync = false ∧ ev.isWrite = false := by
  obtain ⟨c, _, heq⟩ := triggered_eq_upgradeSteps L E chainid chainCfg cfg configRoot hneed
  rw [heq]
  unfold bkSuffixOf at hfail
  unfold upgradeSteps
  rcases hfail with h1 | ⟨h1, h2⟩
  · simp only [hvault, hclose, h1]
    refine ⟨_, rfl, ?_⟩
    intro ev hev
    simp only [List.cons_append, List.nil_append, List.mem_cons, List.mem_singleton,
      List.not_mem_nil, or_false] at hev
    rcases hev with h | h | h <;> subst h <;> exact ⟨rfl, rfl⟩
  · simp only [hvault, hclose, h1, h2]
    refine ⟨_, rfl, ?_⟩
    intro ev hev
    simp only [List.cons_append, List.nil_append, List.mem_cons, List.mem_singleton,
      List.not_mem_nil, or_false] at hev
    rcases hev with h | h | h | h <;> subst h <;> exact ⟨rfl, rfl⟩

/-- Witness of `backup_failure_leaves_config`: chain 199, configured v1
factory `0xf1`, the state-store backup fails. -/
theorem backup_failure_leaves_config_witness :
    ∃ evs, doIfNeedUpgradeFactoryToV2 textAddressLib
          (sampleEnv (some "no space left on device") (.ok "config.backup7") none) 199
          sampleChainCfg (sampleCfg "0xf1") "/root/.btfs" =
        { need := true, err := some "no space left on device", cfg := sampleCfg "0xf1",
          chainCfg := sampleChainCfg, events := evs } ∧
      ∀ ev ∈ evs, ev.isSync = false ∧ ev.isWrite = false :=
  backup_failure_leaves_config textAddressLib
    (sampleEnv (some "no space left on device") (.ok "config.backup7") none) 199
    sampleChainCfg (sampleCfg "0xf1") "/root/.btfs" "c0" "no space left on device"
    (by decide) rfl rfl (Or.inl rfl)

/-- C8, as stated, fails: on chain 199 with the v1 factory `0xf1` configured,
both backups succeed and the persist step fails with `disk full`; the call
returns that error, but the in-memory `cfg.ChainInfo` is no longer the one
before the call: its factory is `0xf2` and its price oracle `0x0a`. -/
theorem persist_failure_config_changed :
    (doIfNeedUpgradeFactoryToV2 textAddressLib
        (sampleEnv none (.ok "config.backup7") (some "disk full")) 199
        sampleChainCfg (sampleCfg "0xf1") "/root/.btfs").err = some "disk full" ∧
    (doIfNeedUpgradeFactoryToV2 textAddressLib
        (sampleEnv none (.ok "config.backup7") (some "disk full")) 199
        sampleChainCfg (sampleCfg "0xf1") "/root/.btfs").cfg.ChainInfo =
      { ChainId := 199, Endpoint := "https://rpc.bt.io/", CurrentFactory := "0xf2",
        PriceOracleAddress := "0x0a" } ∧
    (doIfNeedUpgradeFactoryToV2 textAddressLib
        (sampleEnv none (.ok "config.backup7") (some "disk full")) 199
        sampleChainCfg (sampleCfg "0xf1") "/root/.btfs").cfg.ChainInfo ≠
      (sampleCfg "0xf1").ChainInfo := by
  decide

/-- C8, amended: when a triggered migration gets past both backups and the
persist step `SyncConfigChainInfoV2` fails, `doIfNeedUpgradeFactoryToV2`
returns that error; the in-memory `cfg.ChainInfo` then holds the values
written before the persist step: the chain ID, the endpoint and price oracle
of `chainCfg`, and the code's current factory. -/
theorem persist_failure_returns_error {Addr : Type} (L : AddressLib Addr)
    (E : MigrationEnv Addr) (chainid : Int) (chainCfg : ChainConfig Addr) (cfg : Config)
    (configRoot : String) (c : ChainConfig Addr) (v : Addr) (bk : String) (e : Error)
    (hc : E.GetChainConfig chainid = some c)
    (hneed : (doIfNeedUpgradeFactoryToV2 L E chainid chainCfg cfg configRoot).need = true)
    (hvault : E.GetStoredVaultAddr = .ok v) (hclose : E.Close = none)
    (hbk1 : E.BackUpStateStore configRoot (bkSuffixOf E) = none)
    (hbk2 : E.BackUpConfigV2 (bkSuffixOf E) = .ok bk)
    (hsync : E.SyncConfigChainInfoV2 configRoot chainid chainCfg.Endpoint
      (L.HexToAddress (L.Hex c.CurrentFactory)) chainCfg.PriceOracleAddress = some e) :
    (doIfNeedUpgradeFactoryToV2 L E chainid chainCfg cfg configRoot).err = some e ∧
    (doIfNeedUpgradeFactoryToV2 L E chainid chainCfg cfg configRoot).cfg.ChainInfo =
      { ChainId := chainid, Endpoint := chainCfg.Endpoint,
        CurrentFactory := L.Hex (L.HexToAddress (L.Hex c.CurrentFactory)),
        PriceOracleAddress := L.Hex chainCfg.PriceOracleAddress } := by
  obtain ⟨c2, hc2, heq⟩ := triggered_eq_upgradeSteps L E chainid chainCfg cfg configRoot hneed
  have hcc : c2 = c := by
    rw [hc] at hc2
    exact (Option.some.inj hc2).symm
  subst hcc
  rw [heq]
  unfold bkSuffixOf at hbk1 hbk2
  unfold upgradeSteps
  simp only [hvault, hclose, hbk1, hbk2, hsync]
  trivial

/-- Witness of `persist_failure_returns_error`: chain 199, configured v1
factory `0xf1`, persist fails with `disk full`. -/
theorem persist_failure_returns_error_witness :
    (doIfNeedUpgradeFactoryToV2 textAddressLib
        (sampleEnv none (.ok "config.backup7") (some "disk full")) 199
        sampleChainCfg (sampleCfg "0xf1") "/root/.btfs").err = some "disk full" ∧
    (doIfNeedUpgradeFactoryToV2 textAddressLib
        (sampleEnv none (.ok "config.backup7") (some "disk full")) 199
        sampleChainCfg (sampleCfg "0xf1") "/root/.btfs").cfg.ChainInfo =
      { ChainId := 199, Endpoint := sampleChainCfg.Endpoint,
        CurrentFactory := textAddressLib.Hex (textAddressLib.HexToAddress
          (textAddressLib.Hex "f2")),
        PriceOracleAddress := textAddressLib.Hex sampleChainCfg.PriceOracleAddress } :=
  persist_failure_returns_error textAddressLib
    (sampleEnv none (.ok "config.backup7") (some "disk full")) 199
    sampleChainCfg (sampleCfg "0xf1") "/root/.btfs" _ "c0" "config.backup7" "disk full"
    rfl (by decide) rfl rfl rfl rfl rfl

/-- C9: in every run of `doIfNeedUpgradeFactoryToV2` that decides
`need = true`, the effects are an initial segment of the order: read stored
vault address, close the state store, back up the state-store directory, back
up the config file with the same suffix, write the chain-info fields, persist
the chain info; the segment ends at the first failing step, and a write to
the config occurs only if both backups have succeeded. -/
theorem migration_step_order {Addr : Type} (L : AddressLib Addr) (E : MigrationEnv Addr)
    (chainid : Int) (chainCfg : ChainConfig Addr) (cfg : Config) (configRoot : String)
    (c : ChainConfig Addr) (hc : E.GetChainConfig chainid = some c)
    (hneed : (doIfNeedUpgradeFactoryToV2 L E chainid chainCfg cfg configRoot).need = true) :
    (doIfNeedUpgradeFactoryToV2 L E chainid chainCfg cfg configRoot).events =
      (migrationOrder L E chainid chainCfg configRoot (L.Hex c.CurrentFactory)).take
        (stepsReached E configRoot) ∧
    (∀ ev ∈ (doIfNeedUpgradeFactoryToV2 L E chainid chainCfg cfg configRoot).events,
      ev.isWrite = true →
        E.BackUpStateStore configRoot (bkSuffixOf E) = none ∧
        (E.BackUpConfigV2 (bkSuffixOf E)).toBool = true) := by
  obtain ⟨c2, hc2, heq⟩ := triggered_eq_upgradeSteps L E chainid chainCfg cfg configRoot hneed
  have hcc : c2 = c := by
    rw [hc] at hc2
    exact (Option.some.inj hc2).symm
  subst hcc
  rw [heq]
  unfold upgradeSteps stepsReached migrationOrder bkSuffixOf
  cases hvault : E.GetStoredVaultAddr with
  | error e1 =>
    refine ⟨by simp [Except.toBool], ?_⟩
    intro ev hev
    simp only [List.mem_singleton] at hev
    subst hev
    intro h
    simp [Event.isWrite] at h
  | ok v =>
    cases hclose : E.Close with
    | some e2 =>
      refine ⟨by simp [Except.toBool], ?_⟩
      intro ev hev
      simp only [List.cons_append, List.nil_append, List.mem_cons, List.mem_singleton,
        List.not_mem_nil, or_false] at hev
      rcases hev with h | h <;> subst h <;> intro h <;> simp [Event.isWrite] at h
    | none =>
      cases hbk1 : E.BackUpStateStore configRoot ("backup" ++ fmtD (E.Intn : Int)) with
      | some e3 =>
        refine ⟨by simp [Except.toBool, hbk1], ?_⟩
        intro ev hev
        simp only [hbk1, List.cons_append, List.nil_append, List.mem_cons, List.mem_singleton,
          List.not_mem_nil, or_false] at hev
        rcases hev with h | h | h <;> subst h <;> intro h <;> simp [Event.isWrite] at h
      | none =>
        cases hbk2 : E.BackUpConfigV2 ("backup" ++ fmtD (E.Intn : Int)) with
        | error e4 =>
          refine ⟨by simp [Except.toBool, hbk1, hbk2], ?_⟩
          intro ev hev
          simp only [hbk1, hbk2, List.cons_append, List.nil_append, List.mem_cons,
            List.mem_singleton, List.not_mem_nil, or_false] at hev
          rcases hev with h | h | h | h <;> subst h <;> intro h <;> simp [Event.isWrite] at h
        | ok bk =>
          refine ⟨?_, fun _ _ _ => ⟨rfl, rfl⟩⟩
          simp only [hbk1, hbk2, Except.toBool, Option.isSome]
          cases E.SyncConfigChainInfoV2 configRoot chainid chainCfg.Endpoint
            (L.HexToAddress (L.Hex c2.CurrentFactory)) chainCfg.PriceOracleAddress <;> simp

/-- Witness of `migration_step_order`: chain 199, configured v1 factory
`0xf1`, every step succeeds. -/
theorem migration_step_order_witness :
    (doIfNeedUpgradeFactoryToV2 textAddressLib (sampleEnv none (.ok "config.backup7") none) 199
        sampleChainCfg (sampleCfg "0xf1") "/root/.btfs").events =
      (migrationOrder textAddressLib (sampleEnv none (.ok "config.backup7") none) 199
        sampleChainCfg "/root/.btfs" (textAddressLib.Hex "f2")).take
        (stepsReached (sampleEnv none (.ok "config.backup7") none) "/root/.btfs") ∧
    (∀ ev ∈ (doIfNeedUpgradeFactoryToV2 textAddressLib
          (sampleEnv none (.ok "config.backup7") none) 199
          sampleChainCfg (sampleCfg "0xf1") "/root/.btfs").events,
      ev.isWrite = true →
        (sampleEnv none (.ok "config.backup7") none).BackUpStateStore "/root/.btfs"
            (bkSuffixOf (sampleEnv none (.ok "config.backup7") none)) = none ∧
        ((sampleEnv none (.ok "config.backup7") none).BackUpConfigV2
            (bkSuffixOf (sampleEnv none (.ok "config.backup7") none))).toBool = true) :=
  migration_step_order textAddressLib (sampleEnv none (.ok "config.backup7") none) 199
    sampleChainCfg (sampleCfg "0xf1") "/root/.btfs" _ rfl (by decide)

/-- C10: for a chain ID without a chain configuration,
`doIfNeedUpgradeFactoryToV2` returns `need = false` and an error whose
message mentions the chain ID, with no effect (state store not closed, no
backup) and `cfg`, `chainCfg` unchanged; `daemonFunc` then returns that error
without any further step. -/
theorem unsupported_chain_aborts {Addr : Type} (L : AddressLib Addr) (E : MigrationEnv Addr)
    (R : ReinitEnv) (chainid : Int) (chainCfg : ChainConfig Addr) (cfg : Config)
    (configRoot : String) (hc : E.GetChainConfig chainid = none) :
    ∃ msg, Mentions msg (fmtD chainid) ∧
      doIfNeedUpgradeFactoryToV2 L E chainid chainCfg cfg configRoot =
        { need := false, err := some msg, cfg := cfg, chainCfg := chainCfg, events := [] } ∧
      daemonFunc_upgradeFactory L E R chainid chainCfg cfg configRoot =
        { flow := .returned (some msg), needUpdateFactory := false, cfg := cfg,
          chainCfg := chainCfg, events := [] } := by
  have h1 : doIfNeedUpgradeFactoryToV2 L E chainid chainCfg cfg configRoot =
      { need := false, err := some ("chain " ++ fmtD chainid ++ " is not supported yet"),
        cfg := cfg, chainCfg := chainCfg, events := [] } := by
    unfold doIfNeedUpgradeFactoryToV2
    simp only [hc]
  refine ⟨"chain " ++ fmtD chainid ++ " is not supported yet", ?_, h1, ?_⟩
  · exact ⟨"chain ".data, " is not supported yet".data, by simp [String.data_append]⟩
  · unfold daemonFunc_upgradeFactory
    simp only [h1]

/-- Witness of `unsupported_chain_aborts`: chain 5 is unknown to the sample
outcomes. -/
theorem unsupported_chain_aborts_witness :
    ∃ msg, Mentions msg (fmtD 5) ∧
      doIfNeedUpgradeFactoryToV2 textAddressLib (sampleEnv none (.ok "config.backup7") none) 5
          sampleChainCfg (sampleCfg "") "/root/.btfs" =
        { need := false, err := some msg, cfg := sampleCfg "", chainCfg := sampleChainCfg,
          events := [] } ∧
      daemonFunc_upgradeFactory textAddressLib (sampleEnv none (.ok "config.backup7") none)
          { InitStateStore := fun _ => none, StoreChainIdIfNotExists := fun _ => none } 5
          sampleChainCfg (sampleCfg "") "/root/.btfs" =
        { flow := .returned (some msg), needUpdateFactory := false, cfg := sampleCfg "",
          chainCfg := sampleChainCfg, events := [] } :=
  unsupported_chain_aborts textAddressLib (sampleEnv none (.ok "config.backup7") none)
    { InitStateStore := fun _ => none, StoreChainIdIfNotExists := fun _ => none } 5
    sampleChainCfg (sampleCfg "") "/root/.btfs" rfl

/-! ## Theorems: error aggregation -/

/-- Shared fact: the aggregation loop started from `errs` ends with the
entries of `errs` followed by the contributions of the drained values, and
with nil only when `errs` is nil and every drained value is nil. -/
theorem collect_foldl (drained : List (Option ErrValue)) (errs : Option MultiError) :
    drained.foldl
        (fun errs err =>
          match err with
          | some e => some (multierrorAppend errs e)
          | none => errs)
        errs =
      match errs with
      | some m => some { Errors := m.Errors ++ wrappedErrors drained }
      | none =>
        if drained.all Option.isNone then none
        else some { Errors := wrappedErrors drained } := by
  induction drained generalizing errs with
  | nil => cases errs <;> simp [wrappedErrors]
  | cons v vs ih =>
    cases v with
    | none =>
      simp only [List.foldl_cons, wrappedErrors]
      rw [ih errs]
      cases errs <;> simp
    | some x =>
      simp only [List.foldl_cons, wrappedErrors]
      rw [ih (some (multierrorAppend errs x))]
      cases errs <;> cases x <;> simp [multierrorAppend, wrapped]

/-- C12, as stated, fails: the drained values are a multi-error wrapping two
errors, then a plain error; the result lists three errors, not the two
non-nil values that were drained. -/
theorem daemonFunc_collect_flattens :
    daemonFunc_collect
        [some (.multi ["api: accept failed", "api: listener closed"]), none,
         some (.plain "gateway: listener closed")] =
      some { Errors := ["api: accept failed", "api: listener closed",
                        "gateway: listener closed"] } ∧
    ([some (ErrValue.multi ["api: accept failed", "api: listener closed"]), none,
      some (ErrValue.plain "gateway: listener closed")].reduceOption).length = 2 ∧
    (["api: accept failed", "api: listener closed", "gateway: listener closed"].map
        ErrValue.plain) ≠
      [some (ErrValue.multi ["api: accept failed", "api: listener closed"]), none,
       some (ErrValue.plain "gateway: listener closed")].reduceOption := by
  decide

/-- C12, amended: for every finite sequence of values drained from the
merged stream, the final result of `daemonFunc` is nil if and only if every
drained value is nil; otherwise it is a multi-error that lists, in the order
received, each plain non-nil value once and, in place of a drained value that
is itself a multi-error, the errors that value wraps; when every non-nil
drained value is plain, the list is exactly the non-nil values. -/
theorem daemonFunc_collect_all_errors (drained : List (Option ErrValue)) :
    (daemonFunc_collect drained = none ↔ ∀ v ∈ drained, v = none) ∧
    (daemonFunc_collect drained = none ∨
      daemonFunc_collect drained = some { Errors := wrappedErrors drained }) ∧
    ((∀ v ∈ drained.reduceOption, ∃ e, v = .plain e) →
      (wrappedErrors drained).map .plain = drained.reduceOption) := by
  have h := collect_foldl drained none
  simp only at h
  have hall : drained.all Option.isNone = true ↔ ∀ v ∈ drained, v = none := by
    simp [List.all_eq_true, Option.isNone_iff_eq_none]
  refine ⟨?_, ?_, ?_⟩
  · unfold daemonFunc_collect
    rw [h]
    by_cases hn : drained.all Option.isNone = true
    · simp only [hn, if_true, true_iff]
      exact hall.mp hn
    · simp only [hn, if_false]
      constructor
      · intro h1
        cases h1
      · intro h1
        exact absurd (hall.mpr h1) hn
  · unfold daemonFunc_collect
    rw [h]
    by_cases hn : drained.all Option.isNone = true
    · simp [hn]
    · simp [hn]
  · intro hplain
    induction drained with
    | nil => rfl
    | cons v vs ih =>
      cases v with
      | none =>
        simp only [wrappedErrors, List.reduceOption_cons_of_none] at hplain ⊢
        exact ih (collect_foldl vs none) (by simp [List.all_eq_true, Option.isNone_iff_eq_none])
          hplain
      | some x =>
        simp only [List.reduceOption_cons_of_some, List.mem_cons, forall_eq_or_imp] at hplain
        obtain ⟨⟨e, he⟩, hrest⟩ := hplain
        subst he
        simp only [wrappedErrors, wrapped, List.singleton_append, List.map_cons,
          List.reduceOption_cons_of_some]
        rw [ih (collect_foldl vs none) (by simp [List.all_eq_true, Option.isNone_iff_eq_none])
          hrest]

/-- Witness of `daemonFunc_collect_all_errors`: two services fail with plain
errors; the aggregate lists exactly these, in order. -/
theorem daemonFunc_collect_all_errors_witness :
    (wrappedErrors [some (.plain "api: listener closed"), none,
        some (.plain "gateway: listener closed")]).map ErrValue.plain =
      [some (ErrValue.plain "api: listener closed"), none,
        some (ErrValue.plain "gateway: listener closed")].reduceOption :=
  (daemonFunc_collect_all_errors [some (.plain "api: listener closed"), none,
    some (.plain "gateway: listener closed")]).2.2 (by
      intro v hv
      have hv2 : v = .plain "api: listener closed" ∨ v = .plain "gateway: listener closed" := by
        simpa [List.reduceOption] using hv
      rcases hv2 with h | h
      · exact ⟨_, h⟩
      · exact ⟨_, h⟩)

/-! ## Theorems: the start-up self test -/

/-- C15: when the test is ready to run and `get_functest` fails on both
attempts, `functest` calls `get_functest` exactly 2 times, never calls
`add_functest` and exits with code 101; when the first attempt succeeds
`get_functest` is called once, when the second succeeds twice, and in both
cases the exit code 101 is not produced. -/
theorem functest_fetch_phase (E : FunctestEnv) (path : String)
    (hpath : E.getBtfsBinaryPath = .ok path) (hready : E.prepare_test = true) :
    ((E.get_functest 0 ≠ none ∧ E.get_functest 1 ≠ none) →
      (functest E).events.count .getFunctest = 2 ∧
      .addFunctest ∉ (functest E).events ∧
      (functest E).exit = some getFileTestFailed ∧
      (functest E).events.getLast? = some (.exit 101)) ∧
    (E.get_functest 0 = none →
      (functest E).events.count .getFunctest = 1 ∧
      (functest E).exit ≠ some getFileTestFailed ∧
      .exit 101 ∉ (functest E).events) ∧
    ((E.get_functest 0 ≠ none ∧ E.get_functest 1 = none) →
      (functest E).events.count .getFunctest = 2 ∧
      (functest E).exit ≠ some getFileTestFailed ∧
      .exit 101 ∉ (functest E).events) := by
  refine ⟨?_, ?_, ?_⟩
  · rintro ⟨h0, h1⟩
    obtain ⟨e0, h0⟩ := Option.ne_none_iff_exists'.mp h0
    obtain ⟨e1, h1⟩ := Option.ne_none_iff_exists'.mp h1
    simp [functest, retryLoop, hpath, hready, h0, h1, getFileTestFailed]
  · intro h0
    cases ha0 : E.add_functest 0 <;> cases ha1 : E.add_functest 1 <;>
      simp [functest, retryLoop, hpath, hready, h0, ha0, ha1, getFileTestFailed,
        addFileTestFailed]
  · rintro ⟨h0, h1⟩
    obtain ⟨e0, h0⟩ := Option.ne_none_iff_exists'.mp h0
    cases ha0 : E.add_functest 0 <;> cases ha1 : E.add_functest 1 <;>
      simp [functest, retryLoop, hpath, hready, h0, h1, ha0, ha1, getFileTestFailed,
        addFileTestFailed]

/-- Witness of `functest_fetch_phase`: both fetch attempts time out. -/
theorem functest_fetch_phase_witness :
    (functest (sampleTestEnv (fun _ => some "timeout") (fun _ => none))).events.count
        .getFunctest = 2 ∧
      .addFunctest ∉ (functest (sampleTestEnv (fun _ => some "timeout") (fun _ => none))).events ∧
      (functest (sampleTestEnv (fun _ => some "timeout") (fun _ => none))).exit =
        some getFileTestFailed ∧
      (functest (sampleTestEnv (fun _ => some "timeout") (fun _ => none))).events.getLast? =
        some (.exit 101) :=
  (functest_fetch_phase (sampleTestEnv (fun _ => some "timeout") (fun _ => none))
    "/usr/local/bin/btfs" rfl rfl).1 ⟨by decide, by decide⟩

/-- C16: when the fetch phase succeeded, on its first or its second attempt,
and `add_functest` fails on both attempts, `functest` calls `add_functest`
exactly 2 times and exits with code 102; when both phases succeed within
their two attempts `functest` returns without exiting the process. -/
theorem functest_add_phase (E : FunctestEnv) (path : String)
    (hpath : E.getBtfsBinaryPath = .ok path) (hready : E.prepare_test = true)
    (hget : E.get_functest 0 = none ∨ E.get_functest 1 = none) :
    ((E.add_functest 0 ≠ none ∧ E.add_functest 1 ≠ none) →
      (functest E).events.count .addFunctest = 2 ∧
      (functest E).exit = some addFileTestFailed ∧
      (functest E).events.getLast? = some (.exit 102)) ∧
    ((E.add_functest 0 = none ∨ E.add_functest 1 = none) →
      (functest E).exit = none ∧ ∀ c, .exit c ∉ (functest E).events) := by
  have hg : (retryLoop E.get_functest .getFunctest 0 2).1 = true := by
    cases h0 : E.get_functest 0 with
    | none => simp [retryLoop, h0]
    | some e0 =>
      rcases hget with h | h
      · simp [h0] at h
      · simp [retryLoop, h0, h]
  have hgev : ∀ c, TestEvent.exit c ∉ (retryLoop E.get_functest .getFunctest 0 2).2 := by
    intro c
    cases h0 : E.get_functest 0 <;> cases h1 : E.get_functest 1 <;>
      simp [retryLoop, h0, h1]
  constructor
  · rintro ⟨h0, h1⟩
    obtain ⟨e0, h0⟩ := Option.ne_none_iff_exists'.mp h0
    obtain ⟨e1, h1⟩ := Option.ne_none_iff_exists'.mp h1
    have ha : retryLoop E.add_functest .addFunctest 0 2 =
        (false, [.addFunctest, .sendError e0, .addFunctest, .sendError e1]) := by
      simp [retryLoop, h0, h1]
    have hcount : (retryLoop E.get_functest .getFunctest 0 2).2.count .addFunctest = 0 := by
      cases g0 : E.get_functest 0 <;> cases g1 : E.get_functest 1 <;>
        simp [retryLoop, g0, g1]
    simp only [functest, hpath, hready, hg, ha, addFileTestFailed, if_true,
      Bool.true_eq_false, if_false]
    refine ⟨by simp [List.count_append, hcount], trivial, ?_⟩
    have hsplit : TestEvent.prepareTest ::
        (retryLoop E.get_functest TestEvent.getFunctest 0 2).2 ++
          [TestEvent.addFunctest, TestEvent.sendError e0, TestEvent.addFunctest,
            TestEvent.sendError e1] ++ [TestEvent.exit 102] =
        (TestEvent.prepareTest :: (retryLoop E.get_functest TestEvent.getFunctest 0 2).2 ++
          [TestEvent.addFunctest, TestEvent.sendError e0, TestEvent.addFunctest,
            TestEvent.sendError e1]) ++ [TestEvent.exit 102] := by simp
    rw [hsplit, List.getLast?_append]
    rfl
  · intro hadd
    have ha : (retryLoop E.add_functest .addFunctest 0 2).1 = true := by
      cases h0 : E.add_functest 0 with
      | none => simp [retryLoop, h0]
      | some e0 =>
        rcases hadd with h | h
        · simp [h0] at h
        · simp [retryLoop, h0, h]
    have haev : ∀ c, TestEvent.exit c ∉ (retryLoop E.add_functest .addFunctest 0 2).2 := by
      intro c
      cases h0 : E.add_functest 0 <;> cases h1 : E.add_functest 1 <;>
        simp [retryLoop, h0, h1]
    simp [functest, hpath, hready, hg, ha]
    intro c
    exact ⟨hgev c, haev c⟩

/-- Witness of `functest_add_phase`: the fetch succeeds on the second
attempt, both add attempts fail. -/
theorem functest_add_phase_witness :
    (functest (sampleTestEnv (fun i => if i = 0 then some "timeout" else none)
        (fun _ => some "no host"))).events.count .addFunctest = 2 ∧
      (functest (sampleTestEnv (fun i => if i = 0 then some "timeout" else none)
        (fun _ => some "no host"))).exit = some addFileTestFailed ∧
      (functest (sampleTestEnv (fun i => if i = 0 then some "timeout" else none)
        (fun _ => some "no host"))).events.getLast? = some (.exit 102) :=
  (functest_add_phase (sampleTestEnv (fun i => if i = 0 then some "timeout" else none)
    (fun _ => some "no host")) "/usr/local/bin/btfs" rfl rfl (Or.inr rfl)).1
    ⟨by decide, by decide⟩

/-! ## Theorems: slices of `daemonFunc` -/

/-- C17: after settlement initialisation, an `UpgradeTo` error whose message
contains `already upgraded` leaves `daemonFunc` in the state of a successful
upgrade (the error is discarded and start-up continues); any other error is
returned by `daemonFunc` at once, so that no later step runs. -/
theorem vault_upgrade_outcome (err : Error) :
    (stringsContains err "already upgraded" = true →
      daemonFunc_upgradeVault (some err) = daemonFunc_upgradeVault none ∧
      daemonFunc_upgradeVault (some err) = { flow := .proceed, err := none }) ∧
    (stringsContains err "already upgraded" = false →
      (daemonFunc_upgradeVault (some err)).flow = .returned (some err)) := by
  constructor
  · intro h
    simp [daemonFunc_upgradeVault, h]
  · intro h
    simp [daemonFunc_upgradeVault, h]

/-- C18: for a repository not initialised in this run, `daemonFunc` calls
`repo.SetConfig` if and only if `MigrateConfig` reported a migration or the
price-oracle address was non-empty, and after the step the price-oracle
address is empty; a failing write-back is returned at once; and when
`MigrateConfig` leaves the resulting config unchanged and reports `false` on
it, applying the step again changes no field and calls `repo.SetConfig` no
more. -/
theorem migrate_config_write_back (E : MigrateEnv) (hasHval : Bool) (cfg : Config) :
    ((daemonFunc_migrateConfig E false hasHval cfg).setConfigCalls ≠ [] ↔
      ((E.MigrateConfig cfg false hasHval).2 = true ∨
        (E.MigrateConfig cfg false hasHval).1.ChainInfo.PriceOracleAddress ≠ "")) ∧
    (daemonFunc_migrateConfig E false hasHval cfg).cfg.ChainInfo.PriceOracleAddress = "" ∧
    (∀ err, E.SetConfig (daemonFunc_migrateConfig E false hasHval cfg).cfg = some err →
      (daemonFunc_migrateConfig E false hasHval cfg).setConfigCalls ≠ [] →
      (daemonFunc_migrateConfig E false hasHval cfg).flow = .returned (some err)) ∧
    (E.MigrateConfig (daemonFunc_migrateConfig E false hasHval cfg).cfg false hasHval =
        ((daemonFunc_migrateConfig E false hasHval cfg).cfg, false) →
      daemonFunc_migrateConfig E false hasHval
          (daemonFunc_migrateConfig E false hasHval cfg).cfg =
        { flow := .proceed, cfg := (daemonFunc_migrateConfig E false hasHval cfg).cfg,
          setConfigCalls := [] }) := by
  have hcfg : (daemonFunc_migrateConfig E false hasHval cfg).cfg =
      if (E.MigrateConfig cfg false hasHval).1.ChainInfo.PriceOracleAddress ≠ "" then
        { (E.MigrateConfig cfg false hasHval).1 with
          ChainInfo := { (E.MigrateConfig cfg false hasHval).1.ChainInfo with
            PriceOracleAddress := "" } }
      else (E.MigrateConfig cfg false hasHval).1 := by
    unfold daemonFunc_migrateConfig
    simp only [↓reduceIte]
    repeat' split
    all_goals rfl
  have hempty :
      (daemonFunc_migrateConfig E false hasHval cfg).cfg.ChainInfo.PriceOracleAddress = "" := by
    rw [hcfg]
    by_cases h : (E.MigrateConfig cfg false hasHval).1.ChainInfo.PriceOracleAddress = ""
    · simp [h]
    · simp [h]
  refine ⟨?_, hempty, ?_, ?_⟩
  · unfold daemonFunc_migrateConfig
    simp only [↓reduceIte]
    by_cases h : (E.MigrateConfig cfg false hasHval).1.ChainInfo.PriceOracleAddress = ""
    · cases hm : (E.MigrateConfig cfg false hasHval).2
      · simp [h, hm]
      · simp only [h, hm, ne_eq, not_true_eq_false, if_false, if_true]
        split <;> simp
    · simp only [h, ne_eq, not_false_eq_true, if_true]
      split <;> simp
  · intro err herr hcalls
    rw [hcfg] at herr
    unfold daemonFunc_migrateConfig at hcalls ⊢
    simp only [↓reduceIte] at hcalls ⊢
    by_cases h : (E.MigrateConfig cfg false hasHval).1.ChainInfo.PriceOracleAddress = ""
    · cases hm : (E.MigrateConfig cfg false hasHval).2
      · simp [h, hm] at hcalls
      · simp only [h, ne_eq, not_true_eq_false, if_false] at herr
        simp [h, hm, herr]
    · simp only [h, ne_eq, not_false_eq_true, if_true] at herr
      simp [h, herr]
  · intro hagain
    generalize (daemonFunc_migrateConfig E false hasHval cfg).cfg = c2 at hempty hagain
    unfold daemonFunc_migrateConfig
    simp [hagain, hempty]

/-- Witness of `migrate_config_write_back`: a config with a price-oracle
address and nothing to migrate; the step run again on its result requests no
write-back and changes nothing. -/
theorem migrate_config_write_back_witness :
    daemonFunc_migrateConfig (sampleMigrateEnv false none) false false
        (daemonFunc_migrateConfig (sampleMigrateEnv false none) false false
          (sampleOracleCfg "0x0a")).cfg =
      { flow := .proceed,
        cfg := (daemonFunc_migrateConfig (sampleMigrateEnv false none) false false
          (sampleOracleCfg "0x0a")).cfg,
        setConfigCalls := [] } :=
  (migrate_config_write_back (sampleMigrateEnv false none) false
    (sampleOracleCfg "0x0a")).2.2.2 rfl

/-- Witness of `vault_upgrade_outcome`: an `already upgraded` error is
discarded, an `execution reverted` error is returned. -/
theorem vault_upgrade_outcome_witness :
    (daemonFunc_upgradeVault (some "vault: already upgraded to 0x11") =
        daemonFunc_upgradeVault none ∧
      daemonFunc_upgradeVault (some "vault: already upgraded to 0x11") =
        { flow := .proceed, err := none }) ∧
    (daemonFunc_upgradeVault (some "execution reverted")).flow =
      .returned (some "execution reverted") :=
  ⟨(vault_upgrade_outcome "vault: already upgraded to 0x11").1 (by decide),
   (vault_upgrade_outcome "execution reverted").2 (by decide)⟩

/-- C20: the gas price handed to `chain.InitSettlement` is the value of
`--deployment-gasPrice` whenever the option was supplied, and the
`DeploymentGas` of the resolved chain configuration when it was not. -/
theorem deploy_gas_price_source {Addr : Type} (chainconfig : ChainConfig Addr) :
    (∀ v, daemonFunc_deployGasPrice (some v) chainconfig = v) ∧
    daemonFunc_deployGasPrice none chainconfig = chainconfig.DeploymentGas :=
  ⟨fun _ => rfl, rfl⟩

/-! ## Theorems: starting the HTTP services -/

/-- Shared fact: `listenCalls` over an append. -/
theorem listenCalls_append {M Lis : Type} (xs ys : List (ServeEvent M Lis)) :
    listenCalls (xs ++ ys) = listenCalls xs ++ listenCalls ys := by
  induction xs with
  | nil => rfl
  | cons x xs ih => cases x <;> simp [listenCalls, ih]

/-- Shared fact: the `go` statements contain no `manet.Listen` call. -/
theorem listenCalls_goServe {M Lis : Type} (ls : List Lis) :
    listenCalls (ls.map (ServeEvent.goServe : Lis → ServeEvent M Lis)) = [] := by
  induction ls with
  | nil => rfl
  | cons l ls ih => simpa [listenCalls] using ih

/-- Shared fact: the effects of the binding loop are `manet.Listen` calls on
pairwise different multiaddrs, none of them in the map of bound addresses. -/
theorem bindLoop_events {M Lis : Type} [DecidableEq M] (E : ServeEnv M Lis) (fn what : String)
    (addrs : List String) (bound : List M) (listeners : List Lis)
    (evs : List (ServeEvent M Lis)) :
    ∃ ks : List M,
      (bindLoop E fn what addrs bound listeners evs).events = evs ++ ks.map .listen ∧
      ks.Nodup ∧ ∀ m ∈ ks, m ∉ bound := by
  induction addrs generalizing bound listeners evs with
  | nil => exact ⟨[], by simp [bindLoop], List.nodup_nil, by simp⟩
  | cons a rest ih =>
    unfold bindLoop
    cases hp : E.NewMultiaddr a with
    | error err => exact ⟨[], by simp, List.nodup_nil, by simp⟩
    | ok m =>
      by_cases hm : m ∈ bound
      · simp only [hm, if_true]
        exact ih bound listeners evs
      · simp only [hm, if_false]
        cases hl : E.Listen m with
        | error err => exact ⟨[m], by simp, by simp, by simpa using hm⟩
        | ok lis =>
          obtain ⟨ks, hev, hnd, hnot⟩ := ih (m :: bound) (listeners ++ [lis]) (evs ++ [.listen m])
          refine ⟨m :: ks, ?_, ?_, ?_⟩
          · simp only [hev, List.map_cons, List.append_assoc, List.singleton_append]
          · refine List.nodup_cons.mpr ⟨fun hin => ?_, hnd⟩
            exact hnot m hin (List.mem_cons_self _ _)
          · intro k hk
            rcases List.mem_cons.mp hk with h | h
            · rw [h]
              exact hm
            · exact fun hb => hnot k h (List.mem_cons_of_mem _ hb)

/-- Shared fact: the binding loop returns an error when an address of its
list is malformed or is unbound and fails to bind. -/
theorem bindLoop_fails {M Lis : Type} [DecidableEq M] (E : ServeEnv M Lis) (fn what : String)
    (addrs : List String) (bound : List M) (listeners : List Lis)
    (evs : List (ServeEvent M Lis)) (hbad : BindFails E bound addrs) :
    (bindLoop E fn what addrs bound listeners evs).err ≠ none := by
  induction addrs generalizing bound listeners evs with
  | nil =>
    obtain ⟨addr, hmem, _⟩ := hbad
    exact absurd hmem (List.not_mem_nil _)
  | cons a rest ih =>
    obtain ⟨addr, hmem, hcase⟩ := hbad
    unfold bindLoop
    cases hp : E.NewMultiaddr a with
    | error err => simp
    | ok m =>
      by_cases hm : m ∈ bound
      · simp only [hm, if_true]
        apply ih
        rcases List.mem_cons.mp hmem with h | h
        · subst h
          rcases hcase with ⟨e, he⟩ | ⟨m2, e, hp2, hnb, _⟩
          · rw [hp] at he
            cases he
          · rw [hp] at hp2
            cases hp2
            exact absurd hm hnb
        · exact ⟨addr, h, hcase⟩
      · simp only [hm, if_false]
        cases hl : E.Listen m with
        | error err => simp
        | ok lis =>
          apply ih
          rcases List.mem_cons.mp hmem with h | h
          · subst h
            rcases hcase with ⟨e, he⟩ | ⟨m2, e, hp2, _, hl2⟩
            · rw [hp] at he
              cases he
            · rw [hp] at hp2
              cases hp2
              rw [hl] at hl2
              cases hl2
          · refine ⟨addr, h, ?_⟩
            rcases hcase with ⟨e, he⟩ | ⟨m2, e, hp2, hnb, hl2⟩
            · exact Or.inl ⟨e, he⟩
            · refine Or.inr ⟨m2, e, hp2, ?_, hl2⟩
              intro hin
              rcases List.mem_cons.mp hin with h3 | h3
              · rw [h3, hl] at hl2
                cases hl2
              · exact hnb h3

/-- Shared fact: the binding loop of `serveHTTPRemoteApi` makes only
`manet.Listen` calls and returns an error when an address of its list is
malformed or fails to bind. -/
theorem bindAll_fails {M Lis : Type} (E : ServeEnv M Lis) (addrs : List String)
    (listeners : List Lis) (evs : List (ServeEvent M Lis)) :
    (∃ ks : List M, (bindAll E addrs listeners evs).events = evs ++ ks.map .listen) ∧
    (BindFails E [] addrs → (bindAll E addrs listeners evs).err ≠ none) := by
  induction addrs generalizing listeners evs with
  | nil =>
    refine ⟨⟨[], by simp [bindAll]⟩, ?_⟩
    rintro ⟨addr, hmem, _⟩
    exact absurd hmem (List.not_mem_nil _)
  | cons a rest ih =>
    unfold bindAll
    cases hp : E.NewMultiaddr a with
    | error err => exact ⟨⟨[], by simp⟩, by simp⟩
    | ok m =>
      dsimp only
      cases hl : E.Listen m with
      | error err => exact ⟨⟨[m], by simp⟩, by simp⟩
      | ok lis =>
        dsimp only
        obtain ⟨⟨ks, hev⟩, hfail⟩ := ih (listeners ++ [lis]) (evs ++ [.listen m])
        refine ⟨⟨m :: ks, by simp [hev]⟩, ?_⟩
        rintro ⟨addr, hmem, hcase⟩
        apply hfail
        rcases List.mem_cons.mp hmem with h | h
        · subst h
          rcases hcase with ⟨e, he⟩ | ⟨m2, e, hp2, _, hl2⟩
          · rw [hp] at he
            cases he
          · rw [hp] at hp2
            cases hp2
            rw [hl] at hl2
            cases hl2
        · exact ⟨addr, h, hcase⟩

/-- Shared fact: when every address parses and every unbound one binds, the
binding loop ends without error and has appended to `listeners` one listener
for each first occurrence of an address outside `preKeys`. -/
theorem bindLoop_success {M Lis : Type} [DecidableEq M] (E : ServeEnv M Lis)
    (fn what : String) (parse : String → M) (lis : M → Lis) (preKeys : List M)
    (pre : List Lis) (addrs : List String) (bs bound : List M) (listeners : List Lis)
    (evs : List (ServeEvent M Lis))
    (hp : ∀ a ∈ addrs, E.NewMultiaddr a = .ok (parse a))
    (hl : ∀ a ∈ addrs, parse a ∉ preKeys → E.Listen (parse a) = .ok (lis (parse a)))
    (hb : ∀ m, m ∈ bound ↔ m ∈ preKeys ∨ m ∈ bs)
    (hls : listeners = pre ++ bs.reverse.map lis) :
    (bindLoop E fn what addrs bound listeners evs).err = none ∧
    (bindLoop E fn what addrs bound listeners evs).listeners =
      pre ++ (List.eraseDups.loop
        ((addrs.map parse).filter (fun m => decide (m ∉ preKeys))) bs).map lis := by
  induction addrs generalizing bs bound listeners evs with
  | nil => simp [bindLoop, List.eraseDups.loop, hls]
  | cons a rest ih =>
    have hp2 : ∀ x ∈ rest, E.NewMultiaddr x = .ok (parse x) :=
      fun x hx => hp x (List.mem_cons_of_mem _ hx)
    have hl2 : ∀ x ∈ rest, parse x ∉ preKeys → E.Listen (parse x) = .ok (lis (parse x)) :=
      fun x hx => hl x (List.mem_cons_of_mem _ hx)
    unfold bindLoop
    simp only [hp a (List.mem_cons_self _ _), List.map_cons]
    by_cases hm : parse a ∈ bound
    · simp only [hm, if_true]
      rcases (hb (parse a)).mp hm with hpre | hbs
      · rw [List.filter_cons_of_neg (by simpa using hpre)]
        exact ih bs bound listeners evs hp2 hl2 hb hls
      · by_cases hpre : parse a ∈ preKeys
        · rw [List.filter_cons_of_neg (by simpa using hpre)]
          exact ih bs bound listeners evs hp2 hl2 hb hls
        · rw [List.filter_cons_of_pos (by simpa using hpre)]
          have hel : List.elem (parse a) bs = true := by simpa using hbs
          simp only [List.eraseDups.loop, hel]
          exact ih bs bound listeners evs hp2 hl2 hb hls
    · simp only [hm, if_false]
      have hnot := (not_congr (hb (parse a))).mp hm
      have hpre : parse a ∉ preKeys := fun h => hnot (Or.inl h)
      have hbs : parse a ∉ bs := fun h => hnot (Or.inr h)
      simp only [hl a (List.mem_cons_self _ _) hpre]
      rw [List.filter_cons_of_pos (by simpa using hpre)]
      have hel : List.elem (parse a) bs = false := by simpa using hbs
      simp only [List.eraseDups.loop, hel]
      apply ih (parse a :: bs) (parse a :: bound) _ _ hp2 hl2
      · intro m
        simp only [List.mem_cons, hb m]
        tauto
      · simp [hls]

/-- C13: in `serveHTTPApi`, `serveHTTPGateway` and `serveHTTPRemoteApi`, if
an address of the service's list is malformed or fails to bind, the call
returns a nil channel with an error, and no `corehttp.Serve` task nor the
closing task has been spawned, also when earlier addresses were bound. -/
theorem eager_binding {M Lis : Type} [DecidableEq M] (E : ServeEnv M Lis)
    (apiOpt : Option String) (cfg : ServeConfig) (hcfg : E.GetConfig = .ok cfg) :
    (∀ pre, E.TakeListeners "io.ipfs.api" = .ok pre →
      BindFails E (pre.map E.Multiaddr) (apiAddrsOf cfg apiOpt) →
      (∃ err, (serveHTTPApi E apiOpt).outcome = .failed err) ∧
      serveTasks (serveHTTPApi E apiOpt).events = [] ∧
      .goClose ∉ (serveHTTPApi E apiOpt).events) ∧
    (∀ pre, E.TakeListeners "io.ipfs.gateway" = .ok pre →
      BindFails E (pre.map E.Multiaddr) cfg.Gateway →
      (∃ err, (serveHTTPGateway E).outcome = .failed err) ∧
      serveTasks (serveHTTPGateway E).events = [] ∧
      .goClose ∉ (serveHTTPGateway E).events) ∧
    (BindFails E [] cfg.RemoteAPI →
      (∃ err, (serveHTTPRemoteApi E).outcome = .failed err) ∧
      serveTasks (serveHTTPRemoteApi E).events = [] ∧
      .goClose ∉ (serveHTTPRemoteApi E).events) := by
  have hnone : ∀ ks : List M,
      serveTasks (([] : List (ServeEvent M Lis)) ++ ks.map .listen) = [] ∧
      ServeEvent.goClose ∉ (([] : List (ServeEvent M Lis)) ++ ks.map .listen) := by
    intro ks
    induction ks with
    | nil => simp [serveTasks]
    | cons k ks ih =>
      simp only [List.nil_append, List.map_cons, serveTasks] at ih ⊢
      refine ⟨ih.1, ?_⟩
      intro h
      rcases List.mem_cons.mp h with h1 | h1
      · cases h1
      · exact ih.2 h1
  refine ⟨?_, ?_, ?_⟩
  · intro pre hpre hbad
    obtain ⟨ks, hev, _, _⟩ := bindLoop_events E "serveHTTPApi" "API" (apiAddrsOf cfg apiOpt)
      (pre.map E.Multiaddr) pre []
    have hfail := bindLoop_fails E "serveHTTPApi" "API" (apiAddrsOf cfg apiOpt)
      (pre.map E.Multiaddr) pre [] hbad
    obtain ⟨e, he⟩ := Option.ne_none_iff_exists'.mp hfail
    unfold serveHTTPApi
    simp only [hcfg, hpre, he, hev]
    exact ⟨⟨e, rfl⟩, (hnone ks).1, (hnone ks).2⟩
  · intro pre hpre hbad
    obtain ⟨ks, hev, _, _⟩ := bindLoop_events E "serveHTTPGateway" "gateway" cfg.Gateway
      (pre.map E.Multiaddr) pre []
    have hfail := bindLoop_fails E "serveHTTPGateway" "gateway" cfg.Gateway
      (pre.map E.Multiaddr) pre [] hbad
    obtain ⟨e, he⟩ := Option.ne_none_iff_exists'.mp hfail
    unfold serveHTTPGateway
    simp only [hcfg, hpre, he, hev]
    exact ⟨⟨e, rfl⟩, (hnone ks).1, (hnone ks).2⟩
  · intro hbad
    obtain ⟨⟨ks, hev⟩, hf⟩ := bindAll_fails E cfg.RemoteAPI [] []
    obtain ⟨e, he⟩ := Option.ne_none_iff_exists'.mp (hf hbad)
    unfold serveHTTPRemoteApi
    simp only [hcfg]
    split
    · exact ⟨⟨_, rfl⟩, rfl, by simp⟩
    · simp only [he, hev]
      exact ⟨⟨e, rfl⟩, (hnone ks).1, (hnone ks).2⟩

/-- Witness of `eager_binding`: the second API address cannot be bound after
the first was, the second gateway address is malformed, the remote API
address cannot be bound. -/
theorem eager_binding_witness :
    ((∃ err, (serveHTTPApi (sampleServeEnv sampleBadServeCfg []) none).outcome = .failed err) ∧
      serveTasks (serveHTTPApi (sampleServeEnv sampleBadServeCfg []) none).events = [] ∧
      .goClose ∉ (serveHTTPApi (sampleServeEnv sampleBadServeCfg []) none).events) ∧
    ((∃ err, (serveHTTPGateway (sampleServeEnv sampleBadServeCfg [])).outcome = .failed err) ∧
      serveTasks (serveHTTPGateway (sampleServeEnv sampleBadServeCfg [])).events = [] ∧
      .goClose ∉ (serveHTTPGateway (sampleServeEnv sampleBadServeCfg [])).events) ∧
    ((∃ err, (serveHTTPRemoteApi (sampleServeEnv sampleBadServeCfg [])).outcome = .failed err) ∧
      serveTasks (serveHTTPRemoteApi (sampleServeEnv sampleBadServeCfg [])).events = [] ∧
      .goClose ∉ (serveHTTPRemoteApi (sampleServeEnv sampleBadServeCfg [])).events) :=
  ⟨(eager_binding (sampleServeEnv sampleBadServeCfg []) none sampleBadServeCfg rfl).1 [] rfl
      ⟨"/ip4/0.0.0.0/tcp/80", by decide,
        Or.inr ⟨"/ip4/0.0.0.0/tcp/80", "permission denied", rfl, by decide, rfl⟩⟩,
   (eager_binding (sampleServeEnv sampleBadServeCfg []) none sampleBadServeCfg rfl).2.1 [] rfl
      ⟨"localhost:8080", by decide, Or.inl ⟨"must begin with /", rfl⟩⟩,
   (eager_binding (sampleServeEnv sampleBadServeCfg []) none sampleBadServeCfg rfl).2.2
      ⟨"/ip4/0.0.0.0/tcp/80", by decide,
        Or.inr ⟨"/ip4/0.0.0.0/tcp/80", "permission denied", rfl, by decide, rfl⟩⟩⟩

/-- Shared fact: the listener list and the `manet.Listen` calls of
`serveHTTPApi` are those of its binding loop. -/
theorem serveHTTPApi_binding {M Lis : Type} [DecidableEq M] (E : ServeEnv M Lis)
    (apiOpt : Option String) (cfg : ServeConfig) (pre : List Lis)
    (hcfg : E.GetConfig = .ok cfg) (hpre : E.TakeListeners "io.ipfs.api" = .ok pre) :
    (serveHTTPApi E apiOpt).listeners =
      (bindLoop E "serveHTTPApi" "API" (apiAddrsOf cfg apiOpt) (pre.map E.Multiaddr) pre
        []).listeners ∧
    listenCalls (serveHTTPApi E apiOpt).events =
      listenCalls (bindLoop E "serveHTTPApi" "API" (apiAddrsOf cfg apiOpt)
        (pre.map E.Multiaddr) pre []).events := by
  unfold serveHTTPApi
  simp only [hcfg, hpre]
  generalize bindLoop E "serveHTTPApi" "API" (apiAddrsOf cfg apiOpt) (pre.map E.Multiaddr) pre
    [] = b
  rcases b with ⟨err, ls, evs⟩
  cases err with
  | some e => exact ⟨rfl, rfl⟩
  | none =>
    dsimp only
    cases E.ConstructNode with
    | some e => exact ⟨rfl, rfl⟩
    | none =>
      cases ls with
      | nil => exact ⟨rfl, rfl⟩
      | cons l0 ls =>
        dsimp only
        cases E.SetAPIAddr (E.Multiaddr l0) with
        | some e => exact ⟨rfl, by simp [listenCalls_append, listenCalls]⟩
        | none =>
          exact ⟨rfl, by simp [spawnServe, listenCalls_append, listenCalls_goServe,
            listenCalls]⟩

/-- Shared fact: the listener list and the `manet.Listen` calls of
`serveHTTPGateway` are those of its binding loop. -/
theorem serveHTTPGateway_binding {M Lis : Type} [DecidableEq M] (E : ServeEnv M Lis)
    (cfg : ServeConfig) (pre : List Lis)
    (hcfg : E.GetConfig = .ok cfg) (hpre : E.TakeListeners "io.ipfs.gateway" = .ok pre) :
    (serveHTTPGateway E).listeners =
      (bindLoop E "serveHTTPGateway" "gateway" cfg.Gateway (pre.map E.Multiaddr) pre
        []).listeners ∧
    listenCalls (serveHTTPGateway E).events =
      listenCalls (bindLoop E "serveHTTPGateway" "gateway" cfg.Gateway
        (pre.map E.Multiaddr) pre []).events := by
  unfold serveHTTPGateway
  simp only [hcfg, hpre]
  generalize bindLoop E "serveHTTPGateway" "gateway" cfg.Gateway (pre.map E.Multiaddr) pre
    [] = b
  rcases b with ⟨err, ls, evs⟩
  cases err with
  | some e => exact ⟨rfl, rfl⟩
  | none =>
    dsimp only
    cases E.ConstructNode with
    | some e => exact ⟨rfl, rfl⟩
    | none =>
      exact ⟨rfl, by simp [spawnServe, listenCalls_append, listenCalls_goServe, listenCalls]⟩

/-- Shared fact: the `manet.Listen` calls among a list of such calls. -/
theorem listenCalls_map_listen {M Lis : Type} (ks : List M) :
    listenCalls (ks.map (ServeEvent.listen : M → ServeEvent M Lis)) = ks := by
  induction ks with
  | nil => rfl
  | cons k ks ih => simp [listenCalls, ih]

/-- C14: the binding loops of `serveHTTPApi` and of `serveHTTPGateway` call
`manet.Listen` at most once per multiaddr byte string and never for the
address of a pre-bound listener; when every address parses and every unbound
one binds, the listener list is the pre-bound listeners followed by one new
listener for each first occurrence of a not yet bound configured address, in
configuration order. -/
theorem listener_dedup {M Lis : Type} [DecidableEq M] (E : ServeEnv M Lis)
    (apiOpt : Option String) (cfg : ServeConfig) (preA preG : List Lis)
    (hcfg : E.GetConfig = .ok cfg)
    (hA : E.TakeListeners "io.ipfs.api" = .ok preA)
    (hG : E.TakeListeners "io.ipfs.gateway" = .ok preG) :
    ((listenCalls (serveHTTPApi E apiOpt).events).Nodup ∧
      ∀ m ∈ listenCalls (serveHTTPApi E apiOpt).events, m ∉ preA.map E.Multiaddr) ∧
    ((listenCalls (serveHTTPGateway E).events).Nodup ∧
      ∀ m ∈ listenCalls (serveHTTPGateway E).events, m ∉ preG.map E.Multiaddr) ∧
    (∀ (parse : String → M) (lis : M → Lis),
      (∀ a ∈ apiAddrsOf cfg apiOpt, E.NewMultiaddr a = .ok (parse a)) →
      (∀ a ∈ apiAddrsOf cfg apiOpt, parse a ∉ preA.map E.Multiaddr →
        E.Listen (parse a) = .ok (lis (parse a))) →
      (serveHTTPApi E apiOpt).listeners =
        preA ++ ((((apiAddrsOf cfg apiOpt).map parse).filter
          (fun m => decide (m ∉ preA.map E.Multiaddr))).eraseDups).map lis) ∧
    (∀ (parse : String → M) (lis : M → Lis),
      (∀ a ∈ cfg.Gateway, E.NewMultiaddr a = .ok (parse a)) →
      (∀ a ∈ cfg.Gateway, parse a ∉ preG.map E.Multiaddr →
        E.Listen (parse a) = .ok (lis (parse a))) →
      (serveHTTPGateway E).listeners =
        preG ++ (((cfg.Gateway.map parse).filter
          (fun m => decide (m ∉ preG.map E.Multiaddr))).eraseDups).map lis) := by
  obtain ⟨hAl, hAc⟩ := serveHTTPApi_binding E apiOpt cfg preA hcfg hA
  obtain ⟨hGl, hGc⟩ := serveHTTPGateway_binding E cfg preG hcfg hG
  refine ⟨?_, ?_, ?_, ?_⟩
  · obtain ⟨ks, hev, hnd, hnot⟩ := bindLoop_events E "serveHTTPApi" "API"
      (apiAddrsOf cfg apiOpt) (preA.map E.Multiaddr) preA []
    rw [hAc, hev, List.nil_append, listenCalls_map_listen]
    exact ⟨hnd, hnot⟩
  · obtain ⟨ks, hev, hnd, hnot⟩ := bindLoop_events E "serveHTTPGateway" "gateway"
      cfg.Gateway (preG.map E.Multiaddr) preG []
    rw [hGc, hev, List.nil_append, listenCalls_map_listen]
    exact ⟨hnd, hnot⟩
  · intro parse lis hp hl
    rw [hAl]
    exact (bindLoop_success E "serveHTTPApi" "API" parse lis (preA.map E.Multiaddr) preA
      (apiAddrsOf cfg apiOpt) [] (preA.map E.Multiaddr) preA [] hp hl (by simp) (by simp)).2
  · intro parse lis hp hl
    rw [hGl]
    exact (bindLoop_success E "serveHTTPGateway" "gateway" parse lis (preG.map E.Multiaddr)
      preG cfg.Gateway [] (preG.map E.Multiaddr) preG [] hp hl (by simp) (by simp)).2

/-- Witness of `listener_dedup`: the API list repeats an address and the
gateway list holds the address of the pre-bound listener; three listeners
result for the API and two for the gateway. -/
theorem listener_dedup_witness :
    (serveHTTPApi (sampleServeEnv sampleServeCfg ["/ip4/127.0.0.1/tcp/8080"]) none).listeners =
        ["/ip4/127.0.0.1/tcp/8080", "/ip4/127.0.0.1/tcp/5001", "/ip4/127.0.0.1/tcp/5002"] ∧
      (serveHTTPGateway (sampleServeEnv sampleServeCfg ["/ip4/127.0.0.1/tcp/8080"])).listeners =
        ["/ip4/127.0.0.1/tcp/8080", "/ip4/127.0.0.1/tcp/9000"] :=
  ⟨((listener_dedup (sampleServeEnv sampleServeCfg ["/ip4/127.0.0.1/tcp/8080"]) none
      sampleServeCfg ["/ip4/127.0.0.1/tcp/8080"] ["/ip4/127.0.0.1/tcp/8080"] rfl rfl rfl).2.2.1
      (fun a => a) (fun m => m) (by decide) (by decide)).trans (by decide),
   ((listener_dedup (sampleServeEnv sampleServeCfg ["/ip4/127.0.0.1/tcp/8080"]) none
      sampleServeCfg ["/ip4/127.0.0.1/tcp/8080"] ["/ip4/127.0.0.1/tcp/8080"] rfl rfl rfl).2.2.2
      (fun a => a) (fun m => m) (by decide) (by decide)).trans (by decide)⟩

/-! ## Theorems: routing option, chain-ID persist, negative input -/

/-- C21: `daemonFunc` rejects `--routing=supernode` with its own error;
every value outside `default`, `dht`, `dhtclient`, `dhtserver`, `none`,
`custom` is rejected, with the error `unrecognized routing option` unless it
is `supernode`; `default` stands for the routing type of the config, or for
`dht` when that type is empty; each of `dht`, `dhtclient`, `dhtserver`,
`none`, `custom` selects its one routing constructor. -/
theorem routing_option_validation {D : Type} (delegated : D) (cfgRoutingType : String) :
    daemonFunc_routing delegated (some "supernode") cfgRoutingType =
      .error "supernode routing was never fully implemented and has been removed" ∧
    (∀ v, v ∉ ["default", "dht", "dhtclient", "dhtserver", "none", "custom"] →
      ∃ e, daemonFunc_routing delegated (some v) cfgRoutingType = .error e ∧
        (v ≠ "supernode" → e = "unrecognized routing option: " ++ v)) ∧
    daemonFunc_routing delegated (some "default") cfgRoutingType =
      routingSwitch delegated (if cfgRoutingType = "" then "dht" else cfgRoutingType) ∧
    daemonFunc_routing delegated (some "default") "" = .ok .DHTOption ∧
    daemonFunc_routing delegated (some "dht") cfgRoutingType = .ok .DHTOption ∧
    daemonFunc_routing delegated (some "dhtclient") cfgRoutingType = .ok .DHTClientOption ∧
    daemonFunc_routing delegated (some "dhtserver") cfgRoutingType = .ok .DHTServerOption ∧
    daemonFunc_routing delegated (some "none") cfgRoutingType = .ok .NilRouterOption ∧
    daemonFunc_routing delegated (some "custom") cfgRoutingType =
      .ok (.ConstructDelegatedRouting delegated) := by
  refine ⟨rfl, ?_, rfl, rfl, rfl, rfl, rfl, rfl, rfl⟩
  intro v hv
  simp only [List.mem_cons, List.mem_singleton, List.not_mem_nil, or_false, not_or] at hv
  obtain ⟨h1, h2, h3, h4, h5, h6⟩ := hv
  by_cases hs : v = "supernode"
  · subst hs
    exact ⟨_, rfl, fun h => absurd rfl h⟩
  · refine ⟨"unrecognized routing option: " ++ v, ?_, fun _ => rfl⟩
    simp only [daemonFunc_routing, Option.getD_some, if_neg h1, routingSwitch, if_neg hs,
      if_neg h2, if_neg h3, if_neg h4, if_neg h5, if_neg h6]

/-- Witness of `routing_option_validation`: the value `auto` is rejected as
unrecognized. -/
theorem routing_option_validation_witness :
    ∃ e, daemonFunc_routing () (some "auto") "dht" = .error e ∧
      ("auto" ≠ "supernode" → e = "unrecognized routing option: " ++ "auto") :=
  (routing_option_validation () "dht").2.1 "auto" (by decide)

/-- C22, the code at the failing input: chain 199 with the v1 factory `0xf1`
configured, the factory upgrade succeeds, the state store is re-opened and
`chain.StoreChainIdIfNotExists` fails; `daemonFunc` returns at the bare
`return` with the result nil. -/
theorem store_chain_id_failure_returns_nil :
    (doIfNeedUpgradeFactoryToV2 textAddressLib (sampleEnv none (.ok "config.backup7") none) 199
        sampleChainCfg (sampleCfg "0xf1") "/root/.btfs").need = true ∧
    (doIfNeedUpgradeFactoryToV2 textAddressLib (sampleEnv none (.ok "config.backup7") none) 199
        sampleChainCfg (sampleCfg "0xf1") "/root/.btfs").err = none ∧
    (sampleReinitEnv (some "leveldb: closed")).StoreChainIdIfNotExists 199 =
      some "leveldb: closed" ∧
    (daemonFunc_upgradeFactory textAddressLib (sampleEnv none (.ok "config.backup7") none)
        (sampleReinitEnv (some "leveldb: closed")) 199 sampleChainCfg (sampleCfg "0xf1")
        "/root/.btfs").flow = .returned none := by
  decide

/-- Shared fact: the two conflict messages of `getChainID` differ. -/
theorem cfgConflictMsg_ne_inputConflictMsg (storeChainid cfgChainId inputChainId : Int) :
    cfgConflictMsg storeChainid cfgChainId ≠ inputConflictMsg storeChainid inputChainId := by
  intro h
  have h2 := congrArg String.data h
  simp only [cfgConflictMsg, inputConflictMsg, String.data_append, List.append_assoc] at h2
  have h3 := List.append_cancel_left (List.append_cancel_left h2)
  simp at h3

/-- C23: a negative `--chain-id` is treated like an unset one: for every
configured chain ID, endpoint and outcome of the disk read, `getChainID`
returns for a CLI input `< 0` what it returns without the option and what it
returns for the input `0`; the result never carries the CLI conflict error,
and the negative input is not the returned chain ID. -/
theorem negative_input_like_unset (DefaultChain : Int) (opt : Option String) (cfg : Config)
    (fromDisk : Except Error Int) (input : Int)
    (hin : getInputChainID opt = .ok input) (hneg : input < 0)
    (hdefault : 0 ≤ DefaultChain) :
    getChainID DefaultChain opt cfg fromDisk = getChainID DefaultChain none cfg fromDisk ∧
    getChainID DefaultChain opt cfg fromDisk =
      getChainID DefaultChain (some "0") cfg fromDisk ∧
    (∀ store, fromDisk = .ok store →
      (getChainID DefaultChain opt cfg fromDisk).err ≠ some (inputConflictMsg store input)) ∧
    (getChainID DefaultChain opt cfg fromDisk).chainId ≠ input := by
  have hnp : ¬ (input > 0) := by omega
  have h0 : getInputChainID (some "0") = .ok 0 := by decide
  have hnone : getInputChainID none = .ok 0 := rfl
  have hform : getChainID DefaultChain opt cfg fromDisk =
      getChainID DefaultChain none cfg fromDisk := by
    unfold getChainID
    simp only [hin, hnone]
    cases fromDisk with
    | error e => rfl
    | ok store => simp [hnp]
  have hzero : getChainID DefaultChain (some "0") cfg fromDisk =
      getChainID DefaultChain none cfg fromDisk := by
    unfold getChainID
    simp only [h0, hnone]
  refine ⟨hform, hform.trans hzero.symm, ?_, ?_⟩
  · intro store hstore
    subst hstore
    rw [hform]
    unfold getChainID
    simp only [hnone]
    have hmsg := cfgConflictMsg_ne_inputConflictMsg store cfg.ChainInfo.ChainId input
    split_ifs <;> first
      | (simp; done)
      | (simpa using hmsg)
      | omega
  · rw [hform]
    unfold getChainID
    simp only [hnone]
    cases fromDisk with
    | error e =>
      simp only
      omega
    | ok store =>
      simp only
      split_ifs <;> simp only <;> omega

/-- Witness of `negative_input_like_unset`: the option `--chain-id=-5` on a
fresh repository with default chain 199. -/
theorem negative_input_like_unset_witness :
    getChainID 199 (some "-5") ⟨⟨0, "", "", ""⟩⟩ (.ok 0) =
        getChainID 199 none ⟨⟨0, "", "", ""⟩⟩ (.ok 0) ∧
    getChainID 199 (some "-5") ⟨⟨0, "", "", ""⟩⟩ (.ok 0) =
        getChainID 199 (some "0") ⟨⟨0, "", "", ""⟩⟩ (.ok 0) ∧
    (∀ store, (.ok 0 : Except Error Int) = .ok store →
      (getChainID 199 (some "-5") ⟨⟨0, "", "", ""⟩⟩ (.ok 0)).err ≠
        some (inputConflictMsg store (-5))) ∧
    (getChainID 199 (some "-5") ⟨⟨0, "", "", ""⟩⟩ (.ok 0)).chainId ≠ -5 :=
  negative_input_like_unset 199 (some "-5") ⟨⟨0, "", "", ""⟩⟩ (.ok 0) (-5) (by decide)
    (by decide) (by decide)

/-! ## Theorems: last-online report, first API listener -/

/-- C24: `CheckExistLastOnlineReportV2` never reports a failure of the
last-online lookup: when `chain.GetLastOnline` succeeds and, if it found no
record, the config sync succeeds, the result is nil whatever
`spin.GetLastOnlineInfoWhenNodeMigration` returns; a non-nil result is the
error of `GetLastOnline` or of the config sync; and with a last-online record
the only call is `GetLastOnline`, so no sync is made. -/
theorem last_online_lookup_error_ignored {R : Type} (E : OnlineEnv R)
    (storageHostEnabled : Bool) (configRoot : String) (chainId : Int) :
    (∀ lastOnline, E.GetLastOnline = .ok lastOnline →
      (lastOnline = none →
        E.SyncConfigOnlineCfgV2 configRoot
          (if chainId = 199 then E.OnlineServerDomain else E.OnlineServerDomainTestnet)
          storageHostEnabled = none) →
      (CheckExistLastOnlineReportV2 E storageHostEnabled configRoot chainId).err = none) ∧
    (∀ lookup,
      (CheckExistLastOnlineReportV2 { E with GetLastOnlineInfoWhenNodeMigration := lookup }
          storageHostEnabled configRoot chainId).err =
        (CheckExistLastOnlineReportV2 E storageHostEnabled configRoot chainId).err) ∧
    (∀ e, (CheckExistLastOnlineReportV2 E storageHostEnabled configRoot chainId).err = some e →
      E.GetLastOnline = .error e ∨
      (E.GetLastOnline = .ok none ∧
        E.SyncConfigOnlineCfgV2 configRoot
          (if chainId = 199 then E.OnlineServerDomain else E.OnlineServerDomainTestnet)
          storageHostEnabled = some e)) ∧
    (∀ r, E.GetLastOnline = .ok (some r) →
      CheckExistLastOnlineReportV2 E storageHostEnabled configRoot chainId =
        { err := none, events := [.getLastOnline] }) := by
  have hb : (if storageHostEnabled then true else false) = storageHostEnabled := by
    cases storageHostEnabled <;> rfl
  refine ⟨?_, ?_, ?_, ?_⟩
  · intro lastOnline hl hsync
    unfold CheckExistLastOnlineReportV2
    simp only [hl, hb]
    cases lastOnline with
    | some r => simp
    | none =>
      simp only [Option.isNone_none, if_true, hsync rfl]
      split <;> rfl
  · intro lookup
    unfold CheckExistLastOnlineReportV2
    cases hl : E.GetLastOnline with
    | error e => rfl
    | ok lastOnline =>
      simp only [hb]
      cases lastOnline with
      | some r => simp
      | none =>
        simp only [Option.isNone_none, if_true]
        cases E.SyncConfigOnlineCfgV2 configRoot
          (if chainId = 199 then E.OnlineServerDomain else E.OnlineServerDomainTestnet)
          storageHostEnabled with
        | some e => rfl
        | none => simp
  · intro e he
    unfold CheckExistLastOnlineReportV2 at he
    cases hl : E.GetLastOnline with
    | error e2 =>
      simp only [hl] at he
      left
      rw [Option.some.inj he]
    | ok lastOnline =>
      simp only [hl, hb] at he
      cases lastOnline with
      | some r => simp at he
      | none =>
        simp only [Option.isNone_none, if_true] at he
        cases hs : E.SyncConfigOnlineCfgV2 configRoot
          (if chainId = 199 then E.OnlineServerDomain else E.OnlineServerDomainTestnet)
          storageHostEnabled with
        | some e3 =>
          simp only [hs] at he
          right
          exact ⟨rfl, by rw [Option.some.inj he]⟩
        | none =>
          simp only [hs] at he
          split at he <;> simp at he
  · intro r hl
    unfold CheckExistLastOnlineReportV2
    simp [hl]

/-- Witness of `last_online_lookup_error_ignored`: no record is stored, the
sync succeeds and the lookup fails with `rpc down`; the result is nil. -/
theorem last_online_lookup_error_ignored_witness :
    (CheckExistLastOnlineReportV2 (sampleOnlineEnv none (some "rpc down")) true "/root/.btfs"
      199).err = none :=
  (last_online_lookup_error_ignored (sampleOnlineEnv none (some "rpc down")) true "/root/.btfs"
    199).1 none rfl (fun _ => rfl)

/-- C25, the code at the failing input: with an empty `Addresses.API`, no
`--api` option and no pre-bound listener, `serveHTTPApi` reaches the
`SetAPIAddr` step with an empty listener list and the access `listeners[0]`
is out of range. -/
theorem serveHTTPApi_empty_listeners_out_of_range :
    apiAddrsOf sampleEmptyServeCfg none = [] ∧
    (sampleServeEnv sampleEmptyServeCfg []).TakeListeners "io.ipfs.api" = .ok [] ∧
    (sampleServeEnv sampleEmptyServeCfg []).ConstructNode = none ∧
    (serveHTTPApi (sampleServeEnv sampleEmptyServeCfg []) none).listeners = [] ∧
    (serveHTTPApi (sampleServeEnv sampleEmptyServeCfg []) none).outcome = .indexOutOfRange := by
  decide

/-! ## Theorems: deferred calls of `daemonFunc` -/

/-- Shared fact: a fallible statement that is passed did not fail. -/
theorem orReturn_ok {H α : Type} (st : DaemonState H) (o : Option Error)
    (k : Except (Return H) α) (x : α) (h : orReturn st o k = .ok x) :
    o = none ∧ k = .ok x := by
  cases o with
  | none => exact ⟨rfl, h⟩
  | some e => simp [orReturn] at h

/-- Shared fact: the statements after the decision make no call of
`chain.InitStateStore`. -/
theorem upgradeSteps_no_init {Addr : Type} (L : AddressLib Addr) (E : MigrationEnv Addr)
    (chainid : Int) (chainCfg : ChainConfig Addr) (cfg : Config) (configRoot : String)
    (currFactory : String) :
    (upgradeSteps L E chainid chainCfg cfg configRoot currFactory).events.any
      Event.isInitStateStore = false := by
  unfold upgradeSteps
  dsimp only
  repeat' split
  all_goals rfl

/-- Shared fact: the effects of `doIfNeedUpgradeFactoryToV2` hold no call of
`chain.InitStateStore`. -/
theorem doIfNeedUpgradeFactoryToV2_no_init {Addr : Type} (L : AddressLib Addr)
    (E : MigrationEnv Addr) (chainid : Int) (chainCfg : ChainConfig Addr) (cfg : Config)
    (configRoot : String) :
    (doIfNeedUpgradeFactoryToV2 L E chainid chainCfg cfg configRoot).events.any
      Event.isInitStateStore = false := by
  unfold doIfNeedUpgradeFactoryToV2
  cases hc : E.GetChainConfig chainid with
  | none => rfl
  | some c =>
    simp only []
    cases hv2 : E.IsV2FactoryAddr (L.Hex c.CurrentFactory)
    · simp
    · simp only [Bool.true_eq_false, if_false]
      generalize (if cfg.ChainInfo.CurrentFactory = "" then true
        else if cfg.ChainInfo.CurrentFactory = L.Hex c.CurrentFactory then false
        else E.IsV1FactoryAddr cfg.ChainInfo.CurrentFactory) = nd
      cases nd
      · simp
      · simpa using upgradeSteps_no_init L E chainid chainCfg cfg configRoot
          (L.Hex c.CurrentFactory)

/-- Shared fact: when the factory-upgrade slice of `daemonFunc` falls
through, `chain.InitStateStore` was called again exactly when an upgrade
happened, and then it succeeded. -/
theorem upgradeFactory_proceed {Addr : Type} (L : AddressLib Addr) (E : MigrationEnv Addr)
    (R : ReinitEnv) (chainid : Int) (chainCfg : ChainConfig Addr) (cfg : Config)
    (configRoot : String)
    (h : (daemonFunc_upgradeFactory L E R chainid chainCfg cfg configRoot).flow = .proceed) :
    (daemonFunc_upgradeFactory L E R chainid chainCfg cfg configRoot).events.any
        Event.isInitStateStore =
      (daemonFunc_upgradeFactory L E R chainid chainCfg cfg configRoot).needUpdateFactory ∧
    ((daemonFunc_upgradeFactory L E R chainid chainCfg cfg configRoot).needUpdateFactory = true →
      R.InitStateStore configRoot = none) := by
  have hno := doIfNeedUpgradeFactoryToV2_no_init L E chainid chainCfg cfg configRoot
  unfold daemonFunc_upgradeFactory at h ⊢
  generalize doIfNeedUpgradeFactoryToV2 L E chainid chainCfg cfg configRoot = r at h hno ⊢
  rcases r with ⟨need, err, c2, cc2, evs⟩
  simp only at h hno ⊢
  cases err with
  | some e => simp at h
  | none =>
    cases need with
    | false => simpa using hno
    | true =>
      simp only [if_true] at h ⊢
      cases hi : R.InitStateStore configRoot with
      | some e => simp [hi] at h
      | none =>
        simp only [hi] at h ⊢
        cases hs : R.StoreChainIdIfNotExists chainid with
        | some e => simp [hs] at h
        | none => simp [Event.isInitStateStore]

/-- Shared fact: when `daemonFunc` gets past the `defer` closing the
variable `statestore`, the deferred functions are the printing one,
`repo.Close()`, the guide shutdown outside simple mode, and the state-store
close, and `statestore` is the handle of the first `chain.InitStateStore`. -/
theorem openRepo_state {Addr H : Type} (env : DaemonEnv Addr H) (st : DaemonState H)
    (cfg : Config) (h : daemonFunc_openRepo env = .ok (st, cfg)) :
    ∃ h0, env.InitStateStore = .ok h0 ∧ st.statestore = some h0 ∧
      st.needUpdateFactory = false ∧
      st.deferred = [.printLine, .repoClose] ++
        (if env.SimpleMode = false then [.guideTryShutdownServer] else []) ++
        [.statestoreClose] := by
  unfold daemonFunc_openRepo at h
  dsimp only at h
  obtain ⟨_, h⟩ := orReturn_ok _ _ _ _ h
  cases hg : env.GetConfig with
  | error e => simp [hg] at h
  | ok cfg0 =>
    simp only [hg] at h
    cases hm : (daemonFunc_migrateConfig env.migrate env.inited env.hasHval cfg0).flow with
    | returned r => simp [hm] at h
    | proceed =>
      simp only [hm] at h
      obtain ⟨_, h⟩ := orReturn_ok _ _ _ _ h
      obtain ⟨_, h⟩ := orReturn_ok _ _ _ _ h
      obtain ⟨_, h⟩ := orReturn_ok _ _ _ _ h
      cases hi : env.InitStateStore with
      | error e => simp [hi] at h
      | ok h0 =>
        simp only [hi, Except.ok.injEq, Prod.mk.injEq] at h
        obtain ⟨hst, _⟩ := h
        subst hst
        refine ⟨h0, rfl, rfl, ?_, ?_⟩
        · cases env.SimpleMode <;> rfl
        · cases env.SimpleMode <;> rfl

/-- Shared fact: the chain block registers no deferred function, and leaves
in `statestore` the re-opened handle exactly when a factory upgrade
happened. -/
theorem chain_state {Addr H : Type} (env : DaemonEnv Addr H) (st st1 : DaemonState H)
    (cfg : Config) (hst : st.needUpdateFactory = false)
    (h : daemonFunc_chain env st cfg = .ok st1) :
    st1.deferred = st.deferred ∧
    st1.statestore = (if st1.needUpdateFactory then some env.reopened else st.statestore) ∧
    (env.SimpleMode = true → st1.needUpdateFactory = false) := by
  unfold daemonFunc_chain at h
  cases hs : env.SimpleMode with
  | true =>
    simp only [hs, Bool.true_eq_false, if_false, Except.ok.injEq] at h
    subst h
    simp [hst]
  | false =>
    simp only [hs, if_true] at h
    obtain ⟨_, h⟩ := orReturn_ok _ _ _ _ h
    cases hic : env.InitChainConfig cfg
        (getChainID env.DefaultChain env.chainIdOpt cfg env.GetChainIdFromDisk).stored
        (getChainID env.DefaultChain env.chainIdOpt cfg env.GetChainIdFromDisk).chainId with
    | error e => simp [hic] at h
    | ok chainCfg =>
      simp only [hic] at h
      cases hu : (daemonFunc_upgradeFactory env.addressLib env.migration env.reinit
          (getChainID env.DefaultChain env.chainIdOpt cfg env.GetChainIdFromDisk).chainId
          chainCfg cfg env.configRoot).flow with
      | returned r => simp [hu] at h
      | proceed =>
        obtain ⟨hany, hre⟩ := upgradeFactory_proceed _ _ _ _ _ _ _ hu
        simp only [hu] at h
        obtain ⟨_, h⟩ := orReturn_ok _ _ _ _ h
        cases hsy : env.IsSynced with
        | error e => simp [hsy] at h
        | ok isSynced =>
          simp only [hsy] at h
          obtain ⟨_, h⟩ := orReturn_ok _ _ _ _ h
          obtain ⟨_, h⟩ := orReturn_ok _ _ _ _ h
          cases hv : (daemonFunc_upgradeVault env.UpgradeTo).flow with
          | returned r => simp [hv] at h
          | proceed =>
            simp only [hv] at h
            obtain ⟨_, h⟩ := orReturn_ok _ _ _ _ h
            obtain ⟨_, h⟩ := orReturn_ok _ _ _ _ h
            simp only [Except.ok.injEq] at h
            subst h
            refine ⟨rfl, ?_, by simp⟩
            simp only [hany]
            cases hn : (daemonFunc_upgradeFactory env.addressLib env.migration env.reinit
              (getChainID env.DefaultChain env.chainIdOpt cfg env.GetChainIdFromDisk).chainId
              chainCfg cfg env.configRoot).needUpdateFactory with
            | false => simp
            | true => simp [hre hn]

/-- Shared fact: past the node construction the only change is the deferred
close of the node. -/
theorem node_state {Addr H : Type} (env : DaemonEnv Addr H) (st st1 : DaemonState H)
    (h : daemonFunc_node env st = .ok st1) :
    st1 = { st with deferred := st.deferred ++ [.nodeClose] } := by
  unfold daemonFunc_node at h
  cases hr : daemonFunc_routing () env.routingOpt env.cfgRoutingType with
  | error e => simp [hr] at h
  | ok c =>
    simp only [hr] at h
    obtain ⟨_, h⟩ := orReturn_ok _ _ _ _ h
    simp only [Except.ok.injEq] at h
    exact h.symm

/-- Shared fact: no deferred function changes `_err`. -/
theorem runDeferred_err {H : Type} (C : CloseEnv H) (st : DaemonState H)
    (ds : List DeferredFn) (e : Option ErrValue) : (runDeferred C st ds e).2 = e := by
  induction ds with
  | nil => rfl
  | cons d ds ih =>
    simp only [runDeferred, ih]
    cases d <;> simp only [runDeferredFn]
    split <;> rfl

/-- Shared fact: every `return` after the node construction is reached with
the variables unchanged. -/
theorem fromNode_state {Addr H : Type} (env : DaemonEnv Addr H) (st : DaemonState H) :
    (daemonFunc_fromNode env st).st = st := by
  unfold daemonFunc_fromNode orReturnAt
  repeat' split
  all_goals rfl

/-- C19, as stated, fails: in a run on chain 199 in which every call
succeeds, `node.Close()`, which closes the repository itself, runs first, so
the repository is closed (and its lock released) before the state store is
closed; the deferred `repo.Close()` at the end is a second close. -/
theorem repo_closed_before_state_store :
    (daemonFunc sampleCloseEnv (sampleDaemonEnv false "0xf2" none)).teardown =
      [.nodeClose (some "context canceled"), .repoCloseByNode none, .stateStoreClose 0 none,
       .guideTryShutdownServer, .repoClose none] ∧
    (daemonFunc sampleCloseEnv (sampleDaemonEnv false "0xf2" none)).teardown.findIdx
        Teardown.closesRepo <
      (daemonFunc sampleCloseEnv (sampleDaemonEnv false "0xf2" none)).teardown.findIdx
        Teardown.isStateStoreClose := by
  decide

/-- C19, amended: at every return of `daemonFunc` after the node has been
constructed, the deferred calls run in the reverse order of acquisition:
`node.Close()` first, which closes the repository itself when
`nodeClosesRepo` holds, then `Close()` on the state-store handle held at that
time (the re-opened one after a factory migration, else the first one), then,
outside simple mode, the guide-server shutdown, and the deferred
`repo.Close()` last; whatever the close calls do and return, the result of
`daemonFunc` is the value of the `return` reached. -/
theorem teardown_reverse_order {Addr H : Type} (C : CloseEnv H) (env : DaemonEnv Addr H)
    (st : DaemonState H) (h : daemonFunc_toNode env = .ok st) :
    ∃ h0, env.InitStateStore = .ok h0 ∧
      (daemonFunc C env).teardown =
        [.nodeClose C.nodeCloseRes] ++
        (if C.nodeClosesRepo then [.repoCloseByNode C.repoCloseByNodeRes] else []) ++
        [.stateStoreClose (if st.needUpdateFactory then env.reopened else h0)
          (C.stateStoreCloseRes (if st.needUpdateFactory then env.reopened else h0))] ++
        (if env.SimpleMode = false then [.guideTryShutdownServer] else []) ++
        [.repoClose C.repoCloseRes] ∧
      (∀ C2 : CloseEnv H, (daemonFunc C2 env)._err = (daemonFunc C env)._err) ∧
      (daemonFunc C env)._err = (daemonFunc_fromNode env st).ret ∧
      (env.SimpleMode = true → st.needUpdateFactory = false) := by
  have hto := h
  unfold daemonFunc_toNode at hto
  cases ho : daemonFunc_openRepo env with
  | error r => simp [ho] at hto
  | ok p =>
    obtain ⟨st0, cfg⟩ := p
    simp only [ho] at hto
    obtain ⟨h0, hinit, hss, hnf, hdef⟩ := openRepo_state env st0 cfg ho
    cases hc : daemonFunc_chain env st0 cfg with
    | error r => simp [hc] at hto
    | ok st1 =>
      simp only [hc] at hto
      obtain ⟨hd1, hs1, hsimple⟩ := chain_state env st0 st1 cfg hnf hc
      have hst := node_state env st1 st hto
      have hdeferred : st.deferred = [.printLine, .repoClose] ++
          (if env.SimpleMode = false then [.guideTryShutdownServer] else []) ++
          [.statestoreClose] ++ [.nodeClose] := by
        rw [hst]
        simp only [hd1, hdef]
      have hneed : st.needUpdateFactory = st1.needUpdateFactory := by rw [hst]
      have hstore : st.statestore =
          some (if st.needUpdateFactory then env.reopened else h0) := by
        rw [hneed, hst]
        simp only [hs1, hss]
        cases st1.needUpdateFactory <;> rfl
      refine ⟨h0, hinit, ?_, ?_, ?_, ?_⟩
      · unfold daemonFunc
        simp only [h, fromNode_state, hdeferred]
        cases hsm : env.SimpleMode <;> cases hnr : C.nodeClosesRepo <;>
          simp [runDeferred, runDeferredFn, hstore, hnr]
      · intro C2
        unfold daemonFunc
        simp only [runDeferred_err]
      · unfold daemonFunc
        simp only [h, runDeferred_err]
      · intro hsm
        rw [hneed]
        exact hsimple hsm

/-- Witness of `teardown_reverse_order`: a run on chain 199 with the v1
factory configured, so that the state store is re-opened (handle `1`), in
which the API server fails to start after the node is constructed. -/
theorem teardown_reverse_order_witness :
    ∃ h0, (sampleDaemonEnv false "0xf1" (some "serveHTTPApi: bind failed")).InitStateStore =
        .ok h0 ∧
      (daemonFunc sampleCloseEnv
          (sampleDaemonEnv false "0xf1" (some "serveHTTPApi: bind failed"))).teardown =
        [.nodeClose sampleCloseEnv.nodeCloseRes] ++
        (if sampleCloseEnv.nodeClosesRepo then
          [.repoCloseByNode sampleCloseEnv.repoCloseByNodeRes] else []) ++
        [.stateStoreClose
          (if (DaemonState.mk (some 1) true
              [.printLine, .repoClose, .guideTryShutdownServer, .statestoreClose,
               .nodeClose]).needUpdateFactory
            then (sampleDaemonEnv false "0xf1" (some "serveHTTPApi: bind failed")).reopened
            else h0)
          (sampleCloseEnv.stateStoreCloseRes
            (if (DaemonState.mk (some 1) true
                [.printLine, .repoClose, .guideTryShutdownServer, .statestoreClose,
                 .nodeClose]).needUpdateFactory
              then (sampleDaemonEnv false "0xf1" (some "serveHTTPApi: bind failed")).reopened
              else h0))] ++
        (if (sampleDaemonEnv false "0xf1" (some "serveHTTPApi: bind failed")).SimpleMode = false
          then [.guideTryShutdownServer] else []) ++
        [.repoClose sampleCloseEnv.repoCloseRes] ∧
      (∀ C2 : CloseEnv Nat,
        (daemonFunc C2 (sampleDaemonEnv false "0xf1" (some "serveHTTPApi: bind failed")))._err =
          (daemonFunc sampleCloseEnv
            (sampleDaemonEnv false "0xf1" (some "serveHTTPApi: bind failed")))._err) ∧
      (daemonFunc sampleCloseEnv
          (sampleDaemonEnv false "0xf1" (some "serveHTTPApi: bind failed")))._err =
        (daemonFunc_fromNode (sampleDaemonEnv false "0xf1" (some "serveHTTPApi: bind failed"))
          (DaemonState.mk (some 1) true
            [.printLine, .repoClose, .guideTryShutdownServer, .statestoreClose, .nodeClose])).ret ∧
      ((sampleDaemonEnv false "0xf1" (some "serveHTTPApi: bind failed")).SimpleMode = true →
        (DaemonState.mk (some 1) true
          [.printLine, .repoClose, .guideTryShutdownServer, .statestoreClose,
           .nodeClose]).needUpdateFactory = false) :=
  teardown_reverse_order sampleCloseEnv
    (sampleDaemonEnv false "0xf1" (some "serveHTTPApi: bind failed"))
    (DaemonState.mk (some 1) true
      [.printLine, .repoClose, .guideTryShutdownServer, .statestoreClose, .nodeClose])
    (by decide)

end Btfs
